import Mathlib

/-!
Verification of the SROrch cross-source aggregation pipeline: the
deduplication-and-scoring engine (`master_orchestrator.py`,
`ResearchOrchestrator.deduplicate_and_score`) and the research-gap
text-mining engine (`gap_utils.py`).  The Python code is shallowly
embedded: dictionaries with heterogeneous scalar fields become `Paper`
records over `PyVal`, Python float arithmetic is modelled exactly over
`ℚ` (every constant of the program is a decimal, and all claims are
settled at values where IEEE semantics and exact rational semantics
agree), `int(x)` truncation and `str.isdigit`-guarded coercion are
reproduced, and the fallible `int(...)`/`.isdigit()` calls of the gap
pipeline run in `Except String`.
-/

namespace SROrch

/-! ## Python string and scalar primitives -/

/-- A Python scalar as it appears in the heterogeneous record fields:
`citations` may be an `int` or a `str`, `year` may be an `int` or a `str`. -/
inductive PyVal where
  | int (n : Int)
  | str (s : String)
deriving DecidableEq, Repr

/-- Python whitespace (the `\s` class and the default `strip`/`split`
set, ASCII part): space, tab, newline, carriage return, vertical tab,
form feed. -/
def pyWs (c : Char) : Bool :=
  c == ' ' || c == '\t' || c == '\n' || c == '\r' || c.toNat == 11 || c.toNat == 12

/-- Python `str(v)`. -/
def pyStr : PyVal → String
  | .int n => toString n
  | .str s => s

/-- Python `s.lower()` on a character list (ASCII; all inputs of the
claims are ASCII). -/
def lowerL (l : List Char) : List Char := l.map Char.toLower

/-- Python `s.strip()` on a character list. -/
def stripL (l : List Char) : List Char :=
  ((l.dropWhile pyWs).reverse.dropWhile pyWs).reverse

/-- Python `s.lower()`. -/
def pyLower (s : String) : String := String.mk (lowerL s.toList)

/-- Python `s.strip()`. -/
def pyStrip (s : String) : String := String.mk (stripL s.toList)

/-- Python `s.isdigit()`: non-empty and every character a digit. -/
def pyIsDigit (s : String) : Bool :=
  !s.toList.isEmpty && s.toList.all (fun c => c.isDigit)

/-- Value of an all-digits string (the only use of `int(s)` under an
`isdigit` guard in the dedup engine). -/
def digitsToNat (s : String) : Nat :=
  s.toList.foldl (fun a c => a * 10 + (c.toNat - ('0').toNat)) 0

/-- The character class of `[a-zA-Z0-9]` (and of Python `\w` minus `_`). -/
def isAlnumAscii (c : Char) : Bool := c.isAlpha || c.isDigit

/-! ## Exact fractions

Python float arithmetic on the program's decimal constants is modelled by
exact fractions.  `Frac` is an integer numerator over a positive natural
denominator, not necessarily reduced, so that every operation reduces by
plain integer arithmetic (each claim is settled at inputs where IEEE-754
evaluation and exact evaluation agree, checked against CPython).
Comparisons go by cross-multiplication; `toRat` is the value. -/

structure Frac where
  num : Int
  den : Nat := 1
deriving DecidableEq, Repr

namespace Frac

def ofNat (n : Nat) : Frac := ⟨(n : Int), 1⟩

def ofInt (n : Int) : Frac := ⟨n, 1⟩

def add (a b : Frac) : Frac := ⟨a.num * b.den + b.num * a.den, a.den * b.den⟩

def sub (a b : Frac) : Frac := ⟨a.num * b.den - b.num * a.den, a.den * b.den⟩

def mul (a b : Frac) : Frac := ⟨a.num * b.num, a.den * b.den⟩

/-- Division by a positive natural (the only denominators the program divides by). -/
def divNat (a : Frac) (n : Nat) : Frac := ⟨a.num, a.den * n⟩

/-- `a <= b` on values. -/
def le (a b : Frac) : Bool := decide (a.num * b.den ≤ b.num * a.den)

/-- `a < b` on values. -/
def lt (a b : Frac) : Bool := decide (a.num * b.den < b.num * a.den)

/-- Python `min(a, b)` (returns the first argument on ties). -/
def fmin (a b : Frac) : Frac := if le a b then a else b

/-- Python `max(a, b)` (returns the first argument on ties). -/
def fmax (a b : Frac) : Frac := if le b a then a else b

/-- Floor of the value (`den` is positive in every constructed fraction). -/
def floorI (a : Frac) : Int := a.num.fdiv (a.den : Int)

/-- Round half to even, the rounding of Python `round`. -/
def roundHalfEven (a : Frac) : Int :=
  let fl := floorI a
  let r2 : Int := 2 * (a.num - fl * (a.den : Int))
  if r2 < (a.den : Int) then fl
  else if ((a.den : Int)) < r2 then fl + 1
  else if fl % 2 = 0 then fl else fl + 1

/-- Python `round(x, n)`. -/
def pyRound (n : Nat) (a : Frac) : Frac :=
  ⟨roundHalfEven ⟨a.num * ((10 : Nat) ^ n : Nat), a.den⟩, (10 : Nat) ^ n⟩

/-- Python `int(x)`: truncation toward zero. -/
def truncInt (a : Frac) : Int := a.num.tdiv (a.den : Int)

/-- The rational value of a fraction (used in statements, not in computation). -/
def toRat (a : Frac) : ℚ := (a.num : ℚ) / (a.den : ℚ)

end Frac

/-! ## The common record shape (§3 PaperRecord)

`None`-able fields are `Option`s; `paper.get(k, d)` is `getD`.  `venue`
is already a plain string on entry to the engine (the `normalize_venue`
pass is the identity on strings, and list venues are out of the claims'
scope). -/

structure Paper where
  title : String := ""
  doi : Option String := none
  citations : Option PyVal := none
  year : Option PyVal := none
  venue : Option String := none
  abstract : Option String := none
  tldr : Option String := none
  keywords : Option String := none
  ieee_authors : Option String := none
deriving DecidableEq, Repr

/-- The orchestrator configuration (the keys read by
`deduplicate_and_score`). -/
structure Config where
  high_consensus_threshold : Nat := 4
  citation_weight : Frac := ⟨1, 1⟩
  source_weight : Frac := ⟨100, 1⟩
  enable_alerts : Bool := true
  recency_boost : Bool := true
  recency_years : Int := 5
  recency_multiplier : Frac := ⟨12, 10⟩
deriving DecidableEq, Repr

/-! ## Deduplication & scoring engine
(`ResearchOrchestrator.deduplicate_and_score`, master_orchestrator.py 93-144) -/

/-- `str(paper.get('doi') or 'N/A')`: `None` and the empty string are falsy. -/
def doiRawStr (p : Paper) : String :=
  match p.doi with
  | none => "N/A"
  | some s => if s = "" then "N/A" else s

/-- `doi = str(paper.get('doi') or 'N/A').lower().strip()`. -/
def doiKey (p : Paper) : String := pyStrip (pyLower (doiRawStr p))

/-- `clean_title = re.sub(r'[^a-zA-Z0-9]', '', paper.get('title','').lower().strip())`. -/
def cleanTitle (p : Paper) : String :=
  String.mk ((stripL (lowerL p.title.toList)).filter isAlnumAscii)

/-- The guard of `key = doi if (doi != 'n/a' and len(doi) > 5) else clean_title`. -/
def informativeDoi (s : String) : Bool := s ≠ "n/a" && s.length > 5

/-- The dedup identity of one record. -/
def recordKey (p : Paper) : String :=
  if informativeDoi (doiKey p) then doiKey p else cleanTitle p

/-- `cites = int(cites_raw) if str(cites_raw).isdigit() else 0` with
`cites_raw = paper.get('citations', 0)` (the `try/except` around it can
never fire under the guard). -/
def citesOf (p : Paper) : Nat :=
  let s := pyStr (p.citations.getD (.int 0))
  if pyIsDigit s then digitsToNat s else 0

/-- One slot of `unique_papers`: the stored dict plus its merge-derived
fields (`source_count`, `citations_int` are written into the dict in the
source; they are separate fields here). -/
structure Entry where
  paper : Paper
  source_count : Nat
  citations_int : Nat
deriving DecidableEq, Repr

/-- The merge-pass state: `unique_papers` as an insertion-ordered
association list, plus the stream of "high consensus" alert signals
(each alert records the identity it fired for). -/
structure DedupState where
  entries : List (String × Entry) := []
  alerts : List String := []
deriving DecidableEq, Repr

/-- Replace the value stored at `k` (the in-place dict mutation). -/
def updateAssoc (l : List (String × Entry)) (k : String) (e : Entry) :
    List (String × Entry) :=
  l.map (fun kv => if kv.1 = k then (k, e) else kv)

/-- Folding one duplicate record into its existing entry:
`source_count += 1`, then `citations_int`/`citations` raised when the new
count strictly exceeds the stored maximum. -/
def mergeEntry (e : Entry) (cites : Nat) : Entry :=
  let e1 : Entry := { e with source_count := e.source_count + 1 }
  if e1.citations_int < cites then
    { e1 with citations_int := cites,
              paper := { e1.paper with citations := some (.int ((cites : Int))) } }
  else e1

/-- Processing one record of `all_papers` (the body of the merge loop).
The alert fires exactly when, after the increment, `source_count ==
high_consensus_threshold` and alerts are enabled. -/
def dedupStep (cfg : Config) (st : DedupState) (p : Paper) : DedupState :=
  let key := recordKey p
  let cites := citesOf p
  match st.entries.lookup key with
  | some e =>
      let e2 := mergeEntry e cites
      { entries := updateAssoc st.entries key e2,
        alerts :=
          if cfg.enable_alerts && e2.source_count == cfg.high_consensus_threshold then
            st.alerts ++ [key]
          else st.alerts }
  | none =>
      { st with entries :=
          st.entries ++ [(key, { paper := p, source_count := 1, citations_int := cites })] }

/-- The whole merge pass over the input list. -/
def dedupRun (cfg : Config) (papers : List Paper) : DedupState :=
  papers.foldl (dedupStep cfg) {}

/-- An `AggregatedPaper` after the scoring pass. -/
structure ScoredPaper where
  paper : Paper
  source_count : Nat
  citations_int : Nat
  recency_boosted : Bool
  relevance_score : Int
deriving DecidableEq, Repr

/-- The recency-boost guard: `year_val.isdigit() and len(year_val) == 4`
and `1900 <= paper_year <= 2100` and
`paper_year >= current_year - recency_years`. -/
def recencyEligible (cfg : Config) (currentYear : Int) (yearStr : String) : Bool :=
  pyIsDigit yearStr && yearStr.length == 4 &&
    (let y : Int := (digitsToNat yearStr : Int)
     decide (1900 ≤ y) && decide (y ≤ 2100) &&
       decide (currentYear - cfg.recency_years ≤ y))

/-- The scoring pass over one merged identity (the loop body over
`unique_papers.values()`). -/
def scoreEntry (cfg : Config) (currentYear : Int) (e : Entry) : ScoredPaper :=
  let base : Frac := Frac.add
    (Frac.mul (Frac.ofNat e.source_count) cfg.source_weight)
    (Frac.mul (Frac.ofNat e.citations_int) cfg.citation_weight)
  let yearStr := pyStr (e.paper.year.getD (.str ""))
  let boost : Bool := cfg.recency_boost && recencyEligible cfg currentYear yearStr
  { paper := e.paper, source_count := e.source_count, citations_int := e.citations_int,
    recency_boosted := boost,
    relevance_score :=
      Frac.truncInt (if boost then Frac.mul base cfg.recency_multiplier else base) }

/-- Stable descending insertion (Python `sorted(..., reverse=True)` is a
stable sort; among equal scores the earlier merge-order entry stays first). -/
def insertDesc (x : ScoredPaper) : List ScoredPaper → List ScoredPaper
  | [] => [x]
  | y :: ys =>
      if x.relevance_score < y.relevance_score then y :: insertDesc x ys
      else x :: y :: ys

/-- `sorted(unique_papers.values(), key=lambda x: x['relevance_score'], reverse=True)`. -/
def sortDesc (l : List ScoredPaper) : List ScoredPaper := l.foldr insertDesc []

/-- The full engine: merge every record, score every identity, rank. -/
def deduplicate_and_score (cfg : Config) (currentYear : Int) (papers : List Paper) :
    List ScoredPaper :=
  sortDesc (((dedupRun cfg papers).entries).map (fun kv => scoreEntry cfg currentYear kv.2))

/-! ## Claim C1: the end-to-end scenario of the spec

Config `source_weight=100, citation_weight=1, recency_boost=true,
recency_years=5, recency_multiplier=1.2`, current year 2024, and the
three records of the worked example. -/

def c1Config : Config :=
  { high_consensus_threshold := 4, citation_weight := ⟨1, 1⟩,
    source_weight := ⟨100, 1⟩, enable_alerts := true, recency_boost := true,
    recency_years := 5, recency_multiplier := ⟨12, 10⟩ }

def c1recA : Paper :=
  { title := "Deep Learning for X", doi := some "10.1/ABC",
    citations := some (.str "12"), year := some (.str "2023") }

def c1recB : Paper :=
  { title := "Deep Learning for X.", doi := some "10.1/abc",
    citations := some (.int 5), year := some (.str "2023") }

def c1recC : Paper :=
  { title := "Unrelated Paper", doi := some "N/A",
    citations := some (.str "N/A"), year := some (.str "2019") }

/-- The engine's output on the scenario, projected to the fields the
claim speaks about. -/
def c1Output : List (String × Nat × Nat × Int × Bool) :=
  (deduplicate_and_score c1Config 2024 [c1recA, c1recB, c1recC]).map
    (fun sp => (sp.paper.title, sp.source_count, sp.citations_int,
                sp.relevance_score, sp.recency_boosted))

/-- C1, counterexample.  The claim asserts that "Unrelated Paper" is not
recency-boosted and scores 100; on the code, `2019 >= 2024 - 5` holds, so
the 2019 paper receives the multiplier: its relevance score is
`int(100 * 1.2) = 120`, not 100, and its boosted flag is set. -/
theorem c1_counterexample :
    c1Output.map (fun t => (t.2.2.2.1, t.2.2.2.2)) = [(254, true), (120, true)] ∧
      ¬ c1Output.map (fun t => (t.2.2.2.1, t.2.2.2.2)) = [(254, true), (100, false)] := by
  constructor
  · decide
  · decide

/-- C1 (amended): the scenario yields exactly 2 identities; the merged
"Deep Learning for X" entry has source_count 2, citations_int 12 and
relevance score `int((2*100 + 12*1) * 1.2) = 254`; "Unrelated Paper" has
source_count 1, citations_int 0, IS recency-boosted (2019 >= 2024-5,
the window test of the code being inclusive at `current_year -
recency_years`) and scores `int(100 * 1.2) = 120`; the Deep Learning
entry is listed first. -/
theorem c1_amended_scenario :
    c1Output = [("Deep Learning for X", 2, 12, 254, true),
                ("Unrelated Paper", 1, 0, 120, true)] := by
  decide

/-! ## Claim C2: identity key precedence -/

lemma length_updateAssoc (l : List (String × Entry)) (k : String) (e : Entry) :
    (updateAssoc l k e).length = l.length := by
  simp [updateAssoc]

/-- A two-record run produces one merged identity exactly when the two
records' keys agree. -/
lemma entries_two (cfg : Config) (r1 r2 : Paper) :
    ((dedupRun cfg [r1, r2]).entries).length =
      if recordKey r2 = recordKey r1 then 1 else 2 := by
  simp only [dedupRun, List.foldl, dedupStep, List.lookup]
  by_cases h : recordKey r2 = recordKey r1
  · simp [h, length_updateAssoc]
  · simp [beq_eq_false_iff_ne.mpr h, h]

/-- C2: (a) two records whose DOIs lowercase/trim to the same informative
key merge into one identity whatever their titles; (b) two records
without an informative DOI whose cleaned titles agree merge into one
identity; (c) two records with different informative DOI keys never
merge. -/
theorem c2_identity_key_precedence (cfg : Config) (r1 r2 : Paper) :
    (informativeDoi (doiKey r1) = true → doiKey r1 = doiKey r2 →
        ((dedupRun cfg [r1, r2]).entries).length = 1) ∧
    (informativeDoi (doiKey r1) = false → informativeDoi (doiKey r2) = false →
        cleanTitle r1 = cleanTitle r2 →
        ((dedupRun cfg [r1, r2]).entries).length = 1) ∧
    (informativeDoi (doiKey r1) = true → informativeDoi (doiKey r2) = true →
        doiKey r1 ≠ doiKey r2 →
        ((dedupRun cfg [r1, r2]).entries).length = 2) := by
  refine ⟨fun h1 h2 => ?_, fun h1 h2 h3 => ?_, fun h1 h2 h3 => ?_⟩ <;>
    rw [entries_two]
  · have h2' : informativeDoi (doiKey r2) = true := h2 ▸ h1
    rw [if_pos (by simp [recordKey, h1, h2', h2])]
  · rw [if_pos (by simp [recordKey, h1, h2, h3])]
  · rw [if_neg (by simp [recordKey, h1, h2]; exact fun e => h3 e.symm)]

/-! ## Characterization of the merge pass

`keyCount`/`groupCites` describe the input records falling on one
identity; the fold lemmas show the merge map carries exactly the count
and the running citation maximum of each identity. -/

/-- How many input records collapse to identity `k`. -/
def keyCount (papers : List Paper) (k : String) : Nat :=
  (papers.filter (fun p => recordKey p == k)).length

/-- The citation values of the records of identity `k`, in input order. -/
def groupCites (papers : List Paper) (k : String) : List Nat :=
  (papers.filter (fun p => recordKey p == k)).map citesOf

/-- Merged source count of identity `k` (0 when the identity is absent). -/
def scOfState (st : DedupState) (k : String) : Nat :=
  (st.entries.lookup k).elim 0 (fun e => e.source_count)

/-- Merged citation maximum of identity `k` (0 when absent). -/
def citOfState (st : DedupState) (k : String) : Nat :=
  (st.entries.lookup k).elim 0 (fun e => e.citations_int)

/-- Whether identity `k` exists in the merge map. -/
def hasKey (st : DedupState) (k : String) : Bool := (st.entries.lookup k).isSome

lemma lookup_append (l1 l2 : List (String × Entry)) (k : String) :
    ((l1 ++ l2).lookup k) = (l1.lookup k).or (l2.lookup k) := by
  induction l1 with
  | nil => simp [List.lookup]
  | cons a t ih =>
      simp only [List.cons_append, List.lookup]
      cases h : (k == a.1) <;> simp [h, ih]

lemma lookup_updateAssoc_ne (l : List (String × Entry)) (k k' : String) (e : Entry)
    (h : k ≠ k') : ((updateAssoc l k' e).lookup k) = l.lookup k := by
  induction l with
  | nil => simp [updateAssoc]
  | cons a t ih =>
      obtain ⟨a1, a2⟩ := a
      simp only [updateAssoc, List.map] at ih ⊢
      by_cases ha : a1 = k'
      · rw [if_pos ha]
        simp only [List.lookup]
        rw [show (k == k') = false from beq_eq_false_iff_ne.mpr h,
            show (k == a1) = false from beq_eq_false_iff_ne.mpr (ha ▸ h)]
        exact ih
      · rw [if_neg ha]
        simp only [List.lookup]
        cases hk : (k == a1) <;> simp [ih]

lemma lookup_updateAssoc_eq (l : List (String × Entry)) (k : String) (e : Entry) :
    ((updateAssoc l k e).lookup k) = (l.lookup k).map (fun _ => e) := by
  induction l with
  | nil => simp [updateAssoc]
  | cons a t ih =>
      obtain ⟨a1, a2⟩ := a
      simp only [updateAssoc, List.map] at ih ⊢
      by_cases ha : a1 = k
      · rw [if_pos ha]
        simp only [List.lookup]
        rw [show (k == k) = true from beq_self_eq_true k,
            show (k == a1) = true from beq_iff_eq.mpr ha.symm]
        rfl
      · rw [if_neg ha]
        simp only [List.lookup]
        rw [show (k == a1) = false from beq_eq_false_iff_ne.mpr (fun e2 => ha e2.symm)]
        exact ih

lemma mergeEntry_source_count (e : Entry) (c : Nat) :
    (mergeEntry e c).source_count = e.source_count + 1 := by
  simp only [mergeEntry]
  split <;> rfl

lemma mergeEntry_citations_int (e : Entry) (c : Nat) :
    (mergeEntry e c).citations_int = max e.citations_int c := by
  simp only [mergeEntry]
  split
  · next hc => exact (Nat.max_eq_right (Nat.le_of_lt hc)).symm
  · next hc => exact (Nat.max_eq_left (Nat.le_of_not_lt hc)).symm

lemma dedupStep_lookup_ne (cfg : Config) (st : DedupState) (p : Paper) (k : String)
    (h : recordKey p ≠ k) :
    ((dedupStep cfg st p).entries).lookup k = st.entries.lookup k := by
  simp only [dedupStep]
  cases hl : st.entries.lookup (recordKey p) with
  | none =>
      simp only [lookup_append, List.lookup,
        beq_eq_false_iff_ne.mpr (fun e => h e.symm)]
      cases st.entries.lookup k <;> rfl
  | some e => exact lookup_updateAssoc_ne _ _ _ _ (fun e2 => h e2.symm)

lemma scOfState_dedupStep (cfg : Config) (st : DedupState) (p : Paper) (k : String) :
    scOfState (dedupStep cfg st p) k =
      scOfState st k + (if recordKey p = k then 1 else 0) := by
  by_cases h : recordKey p = k
  · subst h
    simp only [scOfState, dedupStep, if_pos rfl]
    cases hl : st.entries.lookup (recordKey p) with
    | none =>
        simp only [hl, lookup_append, List.lookup, beq_self_eq_true]
        rfl
    | some e =>
        simp only [hl, lookup_updateAssoc_eq, Option.map, Option.elim,
          mergeEntry_source_count]
        simp
  · simp [scOfState, dedupStep_lookup_ne cfg st p k h, h]

lemma citOfState_dedupStep (cfg : Config) (st : DedupState) (p : Paper) (k : String) :
    citOfState (dedupStep cfg st p) k =
      if recordKey p = k then max (citOfState st k) (citesOf p) else citOfState st k := by
  by_cases h : recordKey p = k
  · subst h
    simp only [citOfState, dedupStep, if_pos rfl]
    cases hl : st.entries.lookup (recordKey p) with
    | none =>
        simp only [hl, lookup_append, List.lookup, beq_self_eq_true]
        simp [Option.elim]
    | some e =>
        simp only [hl, lookup_updateAssoc_eq, Option.map, Option.elim,
          mergeEntry_citations_int]
        simp
  · simp [citOfState, dedupStep_lookup_ne cfg st p k h, h]

lemma hasKey_dedupStep (cfg : Config) (st : DedupState) (p : Paper) (k : String) :
    hasKey (dedupStep cfg st p) k = (hasKey st k || (recordKey p == k)) := by
  by_cases h : recordKey p = k
  · subst h
    simp only [hasKey, dedupStep, beq_self_eq_true, Bool.or_true]
    cases hl : st.entries.lookup (recordKey p) with
    | none => simp [hl, lookup_append, List.lookup]
    | some e => simp [hl, lookup_updateAssoc_eq]
  · simp [hasKey, dedupStep_lookup_ne cfg st p k h, beq_eq_false_iff_ne.mpr h]

lemma keyCount_cons (p : Paper) (rest : List Paper) (k : String) :
    keyCount (p :: rest) k = (if recordKey p = k then 1 else 0) + keyCount rest k := by
  simp only [keyCount, List.filter]
  by_cases h : recordKey p = k
  · simp [h]; omega
  · simp [beq_eq_false_iff_ne.mpr h, h]

lemma groupCites_cons (p : Paper) (rest : List Paper) (k : String) :
    groupCites (p :: rest) k =
      if recordKey p = k then citesOf p :: groupCites rest k else groupCites rest k := by
  simp only [groupCites, List.filter]
  by_cases h : recordKey p = k
  · simp [h]
  · simp [beq_eq_false_iff_ne.mpr h, h]

lemma scOfState_foldl (cfg : Config) (papers : List Paper) :
    ∀ (st : DedupState) (k : String),
      scOfState (papers.foldl (dedupStep cfg) st) k = scOfState st k + keyCount papers k := by
  induction papers with
  | nil => intro st k; simp [keyCount]
  | cons p rest ih =>
      intro st k
      rw [List.foldl_cons, ih, scOfState_dedupStep, keyCount_cons]
      omega

lemma citOfState_foldl (cfg : Config) (papers : List Paper) :
    ∀ (st : DedupState) (k : String),
      citOfState (papers.foldl (dedupStep cfg) st) k =
        (groupCites papers k).foldl max (citOfState st k) := by
  induction papers with
  | nil => intro st k; simp [groupCites]
  | cons p rest ih =>
      intro st k
      rw [List.foldl_cons, ih, citOfState_dedupStep, groupCites_cons]
      by_cases h : recordKey p = k
      · simp [h]
      · simp [h]

lemma hasKey_foldl (cfg : Config) (papers : List Paper) :
    ∀ (st : DedupState) (k : String),
      hasKey (papers.foldl (dedupStep cfg) st) k =
        (hasKey st k || decide (0 < keyCount papers k)) := by
  induction papers with
  | nil => intro st k; simp [keyCount]
  | cons p rest ih =>
      intro st k
      rw [List.foldl_cons, ih, hasKey_dedupStep, keyCount_cons]
      by_cases h : recordKey p = k
      · simp [h]
      · simp [beq_eq_false_iff_ne.mpr h, h]

lemma foldl_max_shift : ∀ (l : List Nat) (b : Nat),
    l.foldl max b = max b (l.foldl max 0) := by
  intro l
  induction l with
  | nil => intro b; simp
  | cons x t ih =>
      intro b
      rw [List.foldl_cons, List.foldl_cons, ih, ih (max 0 x)]
      simp [Nat.max_comm, Nat.max_assoc, Nat.max_left_comm]

/-! ## Claim C9: dedup idempotence under doubling -/

/-- C9: running the engine on `L ++ L` yields the same identities as on
`L`, each with `source_count` exactly doubled and `citations_int`
unchanged (the citation fold is a maximum, idempotent under
duplication). -/
theorem c9_dedup_idempotent_under_doubling (cfg : Config) (L : List Paper) (k : String) :
    hasKey (dedupRun cfg (L ++ L)) k = hasKey (dedupRun cfg L) k ∧
    scOfState (dedupRun cfg (L ++ L)) k = 2 * scOfState (dedupRun cfg L) k ∧
    citOfState (dedupRun cfg (L ++ L)) k = citOfState (dedupRun cfg L) k := by
  have hsc0 : scOfState ({} : DedupState) k = 0 := rfl
  have hct0 : citOfState ({} : DedupState) k = 0 := rfl
  have hkc : keyCount (L ++ L) k = keyCount L k + keyCount L k := by
    simp [keyCount, List.filter_append]
  have hgc : groupCites (L ++ L) k = groupCites L k ++ groupCites L k := by
    simp [groupCites, List.filter_append]
  refine ⟨?_, ?_, ?_⟩
  · rw [dedupRun, dedupRun, hasKey_foldl, hasKey_foldl, hkc,
      decide_eq_decide.mpr
        (show 0 < keyCount L k + keyCount L k ↔ 0 < keyCount L k by omega)]
  · rw [dedupRun, dedupRun, scOfState_foldl, scOfState_foldl, hsc0, hkc]
    omega
  · rw [dedupRun, dedupRun, citOfState_foldl, citOfState_foldl, hct0, hgc,
      List.foldl_append, foldl_max_shift]
    simp

/-! ## Claim C8: the high-consensus alert -/

lemma scOfState_of_not_hasKey (st : DedupState) (k : String) (h : hasKey st k = false) :
    scOfState st k = 0 := by
  unfold hasKey at h
  unfold scOfState
  cases hl : st.entries.lookup k with
  | none => rfl
  | some e => rw [hl] at h; simp at h

/-- One merge step appends one alert for `k` exactly when the record
falls on `k`, the identity already exists, alerts are enabled, and the
incremented count equals the threshold. -/
lemma alerts_count_dedupStep (cfg : Config) (st : DedupState) (p : Paper) (k : String) :
    (dedupStep cfg st p).alerts.count k =
      st.alerts.count k +
        (if recordKey p = k ∧ hasKey st k = true ∧ cfg.enable_alerts = true ∧
            scOfState st k + 1 = cfg.high_consensus_threshold then 1 else 0) := by
  by_cases hk : recordKey p = k
  · subst hk
    simp only [dedupStep]
    cases hl : st.entries.lookup (recordKey p) with
    | none => simp [hasKey, hl]
    | some e =>
        have hsc : scOfState st (recordKey p) = e.source_count := by
          simp [scOfState, hl]
        have hhk : hasKey st (recordKey p) = true := by simp [hasKey, hl]
        simp only [hsc, hhk, mergeEntry_source_count, true_and]
        by_cases hen : cfg.enable_alerts = true
        · by_cases hthr : e.source_count + 1 = cfg.high_consensus_threshold
          · rw [if_pos (show (cfg.enable_alerts &&
                (e.source_count + 1 == cfg.high_consensus_threshold)) = true by
                  simp [hen, hthr]),
              if_pos ⟨hen, hthr⟩, List.count_append]
            simp
          · rw [if_neg (show ¬ (cfg.enable_alerts &&
                (e.source_count + 1 == cfg.high_consensus_threshold)) = true by
                  simp [hen, hthr]),
              if_neg (fun hc => hthr hc.2)]
            simp
        · rw [if_neg (show ¬ (cfg.enable_alerts &&
              (e.source_count + 1 == cfg.high_consensus_threshold)) = true by
                simp [Bool.and_eq_true, hen]),
            if_neg (fun hc => hen hc.1)]
          simp
  · rw [if_neg (fun hc => hk hc.1)]
    simp only [dedupStep]
    cases hl : st.entries.lookup (recordKey p) with
    | none => simp
    | some e =>
        simp only []
        split
        · rw [List.count_append]
          simp [List.count_cons, beq_eq_false_iff_ne.mpr hk]
        · simp

/-- The alert-count invariant of the merge pass: as long as alerts are
enabled and the threshold is at least 2, the number of alerts fired for
an identity is 1 once its count has reached the threshold, else 0. -/
lemma alerts_count_invariant (cfg : Config) (hEn : cfg.enable_alerts = true)
    (hThr : 2 ≤ cfg.high_consensus_threshold) (papers : List Paper) :
    ∀ (st : DedupState) (k : String),
      st.alerts.count k =
        (if cfg.high_consensus_threshold ≤ scOfState st k then 1 else 0) →
      (papers.foldl (dedupStep cfg) st).alerts.count k =
        (if cfg.high_consensus_threshold ≤
            scOfState (papers.foldl (dedupStep cfg) st) k then 1 else 0) := by
  induction papers with
  | nil => intro st k h; exact h
  | cons p rest ih =>
      intro st k h
      rw [List.foldl_cons]
      apply ih
      rw [alerts_count_dedupStep, scOfState_dedupStep, h]
      by_cases hk : recordKey p = k
      · by_cases hh : hasKey st k = true
        · by_cases hc : scOfState st k + 1 = cfg.high_consensus_threshold
          · rw [show (if recordKey p = k ∧ hasKey st k = true ∧
                cfg.enable_alerts = true ∧
                scOfState st k + 1 = cfg.high_consensus_threshold then 1 else 0) = 1
                from if_pos ⟨hk, hh, hEn, hc⟩, if_pos hk]
            split_ifs <;> omega
          · rw [show (if recordKey p = k ∧ hasKey st k = true ∧
                cfg.enable_alerts = true ∧
                scOfState st k + 1 = cfg.high_consensus_threshold then 1 else 0) = 0
                from if_neg (fun hcon => hc hcon.2.2.2), if_pos hk]
            split_ifs <;> omega
        · have h0 : scOfState st k = 0 :=
            scOfState_of_not_hasKey st k (Bool.not_eq_true _ ▸ hh)
          rw [show (if recordKey p = k ∧ hasKey st k = true ∧
              cfg.enable_alerts = true ∧
              scOfState st k + 1 = cfg.high_consensus_threshold then 1 else 0) = 0
              from if_neg (fun hcon => hh hcon.2.1), if_pos hk, h0]
          split_ifs <;> omega
      · rw [show (if recordKey p = k ∧ hasKey st k = true ∧
            cfg.enable_alerts = true ∧
            scOfState st k + 1 = cfg.high_consensus_threshold then 1 else 0) = 0
            from if_neg (fun hcon => hk hcon.1), if_neg hk]
        split_ifs <;> omega

/-- C8 (amended): with alerts enabled and `high_consensus_threshold >= 2`,
the high-consensus signal for an identity fires exactly once over any
run whose records give it at least `threshold` sources, and never for an
identity that stays below the threshold.  Applied to every prefix of the
input (the statement quantifies over all `L`), this places the single
firing at the record that moves the count from `threshold - 1` to
`threshold`. -/
theorem c8_alert_fires_exactly_once (cfg : Config) (L : List Paper) (k : String)
    (hEn : cfg.enable_alerts = true) (hThr : 2 ≤ cfg.high_consensus_threshold) :
    (dedupRun cfg L).alerts.count k =
      if cfg.high_consensus_threshold ≤ keyCount L k then 1 else 0 := by
  have hz : scOfState ({} : DedupState) k = 0 := rfl
  have h0 : (({} : DedupState)).alerts.count k =
      (if cfg.high_consensus_threshold ≤ scOfState ({} : DedupState) k then 1 else 0) := by
    rw [hz, if_neg (by omega)]
    rfl
  have hmain := alerts_count_invariant cfg hEn hThr L {} k h0
  rw [show dedupRun cfg L = L.foldl (dedupStep cfg) {} from rfl, hmain,
    scOfState_foldl, hz, Nat.zero_add]

def c8solo : Paper := { title := "Solo Paper" }

def c8badConfig : Config := { high_consensus_threshold := 1 }

/-- C8, counterexample: with `high_consensus_threshold = 1` and alerts
enabled, a single-record identity reaches the threshold (its
`source_count` becomes 1 = threshold at insertion) yet no alert ever
fires, because the signal is only checked in the duplicate-merge branch.
The claim's "emitted exactly once at the moment source_count first
reaches the threshold" therefore fails at threshold 1. -/
theorem c8_counterexample :
    c8badConfig.enable_alerts = true ∧
    c8badConfig.high_consensus_threshold = 1 ∧
    c8badConfig.high_consensus_threshold ≤ keyCount [c8solo] (recordKey c8solo) ∧
    (dedupRun c8badConfig [c8solo]).alerts = [] := by
  refine ⟨rfl, rfl, by decide, by decide⟩

def c8wConfig : Config := { high_consensus_threshold := 2 }

/-- C8 witness: the amended theorem applied at a concrete two-record run
with threshold 2. -/
theorem c8_witness :
    (dedupRun c8wConfig [c8solo, c8solo]).alerts.count (recordKey c8solo) =
      if c8wConfig.high_consensus_threshold ≤
          keyCount [c8solo, c8solo] (recordKey c8solo) then 1 else 0 :=
  c8_alert_fires_exactly_once c8wConfig [c8solo, c8solo] (recordKey c8solo)
    rfl (by decide)

def c2recA1 : Paper := { title := "Foo One", doi := some "10.1/XYZ" }
def c2recA2 : Paper := { title := "Completely Different", doi := some " 10.1/xyz " }
def c2recB1 : Paper := { title := "Deep Learning!" }
def c2recB2 : Paper := { title := "DEEP learning", doi := some "N/A" }
def c2recC1 : Paper := { title := "Same Title", doi := some "10.1/aaa" }
def c2recC2 : Paper := { title := "Same Title", doi := some "10.1/bbb" }

/-- C2 witness: the three parts applied at concrete record pairs — equal
informative DOIs with different titles (one identity), no informative
DOI but equal cleaned titles (one identity), different informative DOIs
with identical titles (two identities). -/
theorem c2_witness :
    ((dedupRun {} [c2recA1, c2recA2]).entries).length = 1 ∧
    ((dedupRun {} [c2recB1, c2recB2]).entries).length = 1 ∧
    ((dedupRun {} [c2recC1, c2recC2]).entries).length = 2 :=
  ⟨(c2_identity_key_precedence {} c2recA1 c2recA2).1 (by decide) (by decide),
   (c2_identity_key_precedence {} c2recB1 c2recB2).2.1 (by decide) (by decide) (by decide),
   (c2_identity_key_precedence {} c2recC1 c2recC2).2.2 (by decide) (by decide) (by decide)⟩

/-! # The research-gap text-mining engine (gap_utils.py)

The pattern library is a set of Python regular expressions matched with
`re.search(..., re.IGNORECASE)`.  The constructs the library uses —
literals, `(?:...|...)` alternation, `?` option, `\s*`, `\d+`,
`.{lo,hi}` — are embedded as a small regex AST whose repetition bodies
are single character classes, matched by Brzozowski derivatives
(total, and exact for class-body repetitions).  Case-insensitivity is
realised by lowercasing both the pattern literals and the input, exact
for ASCII. -/

/-- Regular expressions over characters.  `rep p lo hi` is `p{lo,hi}`
(`hi = none` for unbounded) with a character-class body. -/
inductive RE where
  | eps
  | nul
  | cls (p : Char → Bool)
  | cat (a b : RE)
  | alt (a b : RE)
  | rep (p : Char → Bool) (lo : Nat) (hi : Option Nat)

/-- Does the expression accept the empty word? -/
def RE.nullable : RE → Bool
  | .eps => true
  | .nul => false
  | .cls _ => false
  | .cat a b => a.nullable && b.nullable
  | .alt a b => a.nullable || b.nullable
  | .rep _ lo _ => lo == 0

/-- Brzozowski derivative by one character. -/
def RE.deriv : RE → Char → RE
  | .eps, _ => .nul
  | .nul, _ => .nul
  | .cls p, c => if p c then .eps else .nul
  | .cat a b, c =>
      if a.nullable then .alt (.cat (a.deriv c) b) (b.deriv c)
      else .cat (a.deriv c) b
  | .alt a b, c => .alt (a.deriv c) (b.deriv c)
  | .rep p lo hi, c =>
      match hi with
      | some 0 => .nul
      | some (h + 1) => if p c then .rep p (lo - 1) (some h) else .nul
      | none => if p c then .rep p (lo - 1) none else .nul

/-- Does the expression match some prefix of the word? -/
def RE.prefMatch : RE → List Char → Bool
  | r, [] => r.nullable
  | r, c :: cs => r.nullable || (r.deriv c).prefMatch cs

/-- Does the expression match a subword starting at some position? -/
def RE.searchFrom : RE → List Char → Bool
  | r, [] => r.nullable
  | r, c :: cs => r.prefMatch (c :: cs) || r.searchFrom cs

/-- `re.search(pattern, s, re.IGNORECASE) is not None`: patterns are
transcribed lowercase and the subject is lowercased. -/
def reSearch (r : RE) (s : String) : Bool := r.searchFrom (lowerL s.toList)

/-! DSL for transcribing the pattern library. -/

/-- A literal, one `cls` per character. -/
def lit (s : String) : RE :=
  s.toList.foldr (fun c r => RE.cat (RE.cls (fun x => x == c)) r) RE.eps

/-- `(?:a|b|...)`. -/
def alts : List RE → RE
  | [] => RE.nul
  | r :: rs => rs.foldl RE.alt r

/-- Concatenation of a list of pieces. -/
def seqs : List RE → RE
  | [] => RE.eps
  | r :: rs => rs.foldl RE.cat r

/-- `(?:a|b|...)` over word literals. -/
def aw (l : List String) : RE := alts (l.map lit)

/-- `x?`. -/
def opt (r : RE) : RE := RE.alt r RE.eps

/-- `\s*`. -/
def ws0 : RE := RE.rep pyWs 0 none

/-- `\d+`. -/
def digits1 : RE := RE.rep (fun c => c.isDigit) 1 none

/-- `.{lo,hi}` (any character but newline). -/
def dotRange (lo hi : Nat) : RE := RE.rep (fun c => !(c == '\n')) lo (some hi)

/-! ## The four pattern packs (`get_*_gap_patterns`), in source order.
Each Python dict literal maps a regex to a category label; dict
iteration order is insertion order, so each pack is a list here. -/

/-- `get_ai_gap_patterns()`. -/
def aiGapPatterns : List (RE × String) := [
  (seqs [aw ["remains", "is"], lit " ",
    aw ["a challenge", "an open problem", "unsolved"]], "Performance Gap"),
  (seqs [aw ["fails", "struggles"], lit " to ",
    aw ["generalize", "capture", "scale"]], "Generalization Gap"),
  (seqs [aw ["performance", "accuracy"], lit " ",
    aw ["degrades", "drops", "plateaus"], lit " ", aw ["when", "at"]],
    "Performance Degradation"),
  (seqs [lit "unable to ", aw ["reach", "achieve", "match"], lit " ",
    aw ["human-level", "sota", "state-of-the-art"]], "SOTA Gap"),
  (seqs [lit "saturated ", aw ["benchmarks", "datasets"]], "Benchmark Saturation"),
  (seqs [aw ["bottleneck", "limitation"], lit " in ",
    aw ["computational", "processing", "training"], lit " ",
    aw ["efficiency", "speed"]], "Efficiency Bottleneck"),
  (seqs [lit "computationally ", aw ["expensive", "prohibitive", "demanding"]],
    "Computational Cost"),
  (seqs [lit "limited by ", aw ["hardware", "gpu", "memory", "vram", "compute"]],
    "Hardware Limitation"),
  (seqs [lit "high ", aw ["inference", "training"], lit " cost"], "Cost Barrier"),
  (seqs [lit "lack of ", aw ["energy-efficient", "real-time"], lit " ",
    aw ["implementation", "processing"]], "Energy/Real-time Gap"),
  (seqs [lit "scalability ", aw ["issues", "challenges", "concerns"]],
    "Scalability Gap"),
  (seqs [lit "data ", aw ["scarcity", "sparsity", "imbalance", "paucity"]],
    "Data Scarcity"),
  (seqs [lit "dependence on ",
    aw ["large-scale", "labeled", "curated", "annotated"], lit " datasets"],
    "Data Dependency"),
  (seqs [aw ["vulnerable", "susceptible"], lit " to ",
    aw ["adversarial", "noise", "out-of-distribution", "ood"]], "Robustness Gap"),
  (seqs [lit "black-box ", aw ["nature", "model", "behavior"]],
    "Interpretability Gap"),
  (seqs [lit "lack of ",
    aw ["interpretability", "explainability", "transparency", "understanding"]],
    "Explainability Gap"),
  (seqs [lit "domain ", aw ["shift", "adaptation", "generalization"], lit " ",
    aw ["remains", "is"]], "Domain Adaptation Gap"),
  (seqs [aw ["bias", "fairness", "ethical"], lit " ",
    aw ["issues", "concerns", "challenges"]], "Ethical/Bias Gap"),
  (seqs [aw ["demographic", "gender", "racial"], lit " ",
    aw ["bias", "disparity"]], "Demographic Bias"),
  (seqs [lit "lack of ", aw ["diversity", "representation"], lit " in ",
    aw ["data", "training", "datasets"]], "Representation Gap")]

/-- `get_clinical_gap_patterns()`. -/
def clinicalGapPatterns : List (RE × String) := [
  (seqs [aw ["lack", "absence"], lit " of ",
    aw ["randomized", "controlled", "prospective", "rct"], lit " ",
    aw ["trials", "studies"]], "RCT Gap"),
  (seqs [lit "limited ", aw ["clinical", "real-world"], lit " ",
    aw ["evidence", "data", "validation"]], "Real-world Evidence Gap"),
  (seqs [aw ["small", "limited", "insufficient"], lit " ",
    alts [lit "sample size", lit "cohort", lit "patient population",
      seqs [lit "n", ws0, lit "=", ws0, digits1]]], "Sample Size Limitation"),
  (seqs [aw ["short", "limited"], lit " ", aw ["follow-up", "observation"],
    lit " ", aw ["period", "duration"]], "Follow-up Gap"),
  (seqs [lit "heterogeneity ", aw ["in", "of"], lit " ",
    aw ["patient", "treatment", "study"], lit " ",
    aw ["populations", "protocols", "designs"]], "Heterogeneity Gap"),
  (seqs [lit "lack of ", aw ["longitudinal", "long-term"], lit " ",
    aw ["studies", "data", "outcomes"]], "Longitudinal Data Gap"),
  (seqs [lit "optimal ",
    aw ["dose", "dosage", "treatment", "regimen", "protocol"], lit " ",
    aw ["remains", "is"], lit " ",
    aw ["unclear", "undetermined", "unknown", "not established"]],
    "Optimal Treatment Unknown"),
  (seqs [aw ["no", "limited"], lit " ",
    aw ["standardized", "consensus", "established"], lit " ",
    aw ["guidelines", "protocols", "criteria", "recommendations"]],
    "Guideline Gap"),
  (seqs [lit "efficacy ", aw ["in", "across"], lit " ",
    aw ["different", "diverse"], lit " ",
    aw ["populations", "settings", "subgroups"], lit " ",
    aw ["is unclear", "remains unknown", "not established"]],
    "Population-specific Efficacy Gap"),
  (seqs [lit "long-term ",
    aw ["safety", "efficacy", "outcomes", "side effects"], lit " ",
    aw ["not", "remain"], lit " ",
    aw ["established", "evaluated", "assessed", "known"]],
    "Long-term Safety Gap"),
  (seqs [aw ["adverse", "side"], lit " effect", opt (lit "s"), lit " ",
    aw ["profile", "data"], lit " ",
    aw ["limited", "unknown", "not well", "insufficiently"]],
    "Safety Profile Gap"),
  (seqs [lit "lack of ",
    aw ["validated", "reliable", "specific", "sensitive"], lit " ",
    aw ["biomarkers", "diagnostic criteria", "diagnostic tools"]],
    "Biomarker Gap"),
  (seqs [aw ["sensitivity", "specificity", "ppv", "npv"], lit " ",
    aw ["needs", "requires"], lit " ",
    aw ["improvement", "validation", "optimization"]],
    "Diagnostic Accuracy Gap"),
  (seqs [lit "early ", aw ["detection", "diagnosis", "screening"], lit " ",
    aw ["remains", "is"], lit " ",
    aw ["challenging", "difficult", "suboptimal"]], "Early Detection Gap"),
  (seqs [aw ["differential", "accurate"], lit " diagnosis ",
    aw ["challenging", "difficult", "remains problematic"]],
    "Diagnosis Challenge"),
  (seqs [alts [seqs [lit "mechanism", opt (lit "s")],
      seqs [lit "pathway", opt (lit "s")]], lit " ",
    aw ["underlying", "of action", "driving"], lit " ", dotRange 1 60, lit " ",
    aw ["remain", "are"], lit " ",
    aw ["unclear", "unknown", "poorly understood"]], "Mechanism Gap"),
  (seqs [aw ["etiology", "pathophysiology"], lit " ",
    aw ["of", "underlying"], lit " ", dotRange 1 40, lit " ",
    aw ["remains", "is"], lit " ", aw ["unclear", "unknown"]], "Etiology Gap")]

/-- `get_general_gap_patterns()`. -/
def generalGapPatterns : List (RE × String) := [
  (seqs [aw ["further", "future", "additional"], lit " ",
    aw ["research", "studies", "investigations", "work"], lit " ",
    aw ["is", "are", "will be", "should be", "needed", "required",
        "warranted", "necessary"]], "Future Research Needed"),
  (seqs [aw ["more", "additional"], lit " ",
    aw ["research", "studies", "data", "evidence"], lit " ",
    aw ["is", "are"], lit " ", aw ["needed", "required", "warranted"]],
    "More Research Needed"),
  (seqs [lit "future ", aw ["work", "directions", "studies", "research"],
    lit " ", aw ["should", "will", "could", "needs to"], lit " ",
    aw ["focus on", "address", "examine", "explore", "investigate",
        "consider"]], "Future Direction"),
  (seqs [aw ["warrants", "requires", "merits", "calls for"], lit " ",
    aw ["further", "additional", "more", "systematic"], lit " ",
    aw ["investigation", "exploration", "research", "study", "analysis"]],
    "Calls for Investigation"),
  (seqs [lit "urgent", opt (lit "ly"), lit " ",
    aw ["need", "require", "call"], lit " for ", dotRange 1 50, lit " ",
    aw ["research", "study", "investigation"]], "Urgent Research Need"),
  (seqs [aw ["remains", "is"], lit " ",
    aw ["poorly", "not fully", "incompletely", "inadequately",
        "insufficiently"], lit " ",
    aw ["understood", "characterized", "defined", "elucidated", "explained"]],
    "Knowledge Gap"),
  (seqs [aw ["little", "limited", "scant"], lit " ", aw ["is", "has been"],
    lit " ", aw ["known", "understood", "reported", "documented", "studied"],
    lit " ", aw ["about", "regarding", "concerning", "on"]],
    "Limited Knowledge"),
  (seqs [aw ["limited", "scarce", "insufficient", "inadequate"], lit " ",
    aw ["evidence", "data", "information", "knowledge"], lit " ",
    aw ["exists", "is available", "to support", "regarding"]],
    "Evidence Scarcity"),
  (seqs [aw ["unclear", "unknown", "uncertain", "obscure", "ambiguous"],
    lit " ", aw ["whether", "if", "how", "why", "what", "when", "where"]],
    "Uncertainty"),
  (seqs [aw ["not", "never", "yet"], lit " ",
    aw ["been", "been fully", "been adequately"], lit " ",
    aw ["determined", "established", "demonstrated", "proven", "validated"]],
    "Validation Gap"),
  (seqs [lit "has ", aw ["not", "never", "rarely", "seldom"], lit " been ",
    aw ["investigated", "explored", "studied", "examined", "addressed",
        "evaluated", "considered"]], "Unexplored Area"),
  (seqs [aw ["no", "few", "limited", "scant", "insufficient"], lit " ",
    aw ["studies", "investigations", "research", "publications",
        "literature"], lit " ", aw ["have", "has"], lit " ",
    aw ["examined", "investigated", "explored", "addressed", "focused on"]],
    "Literature Gap"),
  (seqs [aw ["remains", "is"], lit " ",
    opt (aw ["largely ", "mostly ", "relatively "]),
    aw ["unexplored", "unexamined", "uninvestigated", "underexplored",
        "understudied"]], "Underexplored Area"),
  (seqs [lit "potential ",
    aw ["area", "avenue", "direction", "opportunity"], lit " for ",
    aw ["future", "additional", "further"], lit " ",
    aw ["investigation", "research", "exploration", "inquiry"]],
    "Research Opportunity"),
  (seqs [aw ["gap", "void", "lacuna"], lit " in ",
    aw ["the", "our", "existing"], lit " ",
    aw ["literature", "knowledge", "understanding", "research"]],
    "Explicit Gap Statement"),
  (seqs [aw ["lack", "dearth", "absence", "paucity", "shortage"], lit " of ",
    aw ["evidence", "studies", "data", "research", "literature",
        "information"]], "Evidence Gap"),
  (seqs [aw ["limited", "sparse", "insufficient", "scant", "patchy"],
    lit " ", aw ["evidence", "data"], lit " ",
    aw ["exists", "is available", "to support", "for", "regarding"]],
    "Data Limitation"),
  (seqs [aw ["no", "limited", "insufficient"], lit " ",
    aw ["empirical", "experimental", "quantitative", "qualitative",
        "systematic"], lit " ",
    aw ["evidence", "data", "studies", "research"]],
    "Methodological Evidence Gap"),
  (seqs [lit "data ",
    aw ["scarcity", "limitations", "gaps", "deficits", "are lacking"]],
    "Data Scarcity"),
  (seqs [aw ["high-quality", "robust", "reliable"], lit " ",
    aw ["data", "evidence"], lit " ", aw ["is", "are"], lit " ",
    aw ["lacking", "needed", "required"]], "Quality Evidence Gap"),
  (seqs [aw ["conflicting", "inconsistent", "contradictory", "mixed",
      "discrepant", "divergent"], lit " ",
    aw ["results", "evidence", "findings", "reports", "conclusions",
        "data"]], "Conflicting Evidence"),
  (seqs [aw ["controversial", "debated", "disputed", "contentious"], lit " ",
    aw ["findings", "results", "evidence", "issues", "questions"]],
    "Controversy"),
  (seqs [aw ["lack", "absence"], lit " of ",
    aw ["consensus", "agreement", "convergence", "clarity"], lit " ",
    aw ["on", "regarding", "about", "concerning"]], "Consensus Gap"),
  (seqs [aw ["debate", "controversy"], lit " ",
    aw ["remains", "continues", "exists", "persists"], lit " ",
    aw ["regarding", "about", "concerning", "over"]], "Ongoing Debate"),
  (seqs [aw ["methodological", "analytical", "experimental", "design"],
    lit " ", aw ["limitations", "challenges", "issues", "constraints",
        "shortcomings"]], "Methodological Limitation"),
  (seqs [aw ["lack", "absence"], lit " of ",
    aw ["standardized", "validated", "reliable", "robust", "appropriate"],
    lit " ", aw ["methods", "measures", "tools", "instruments", "protocols"]],
    "Methodology Gap"),
  (seqs [lit "generalizability ", aw ["is", "remains"], lit " ",
    aw ["limited", "uncertain", "unclear", "questionable", "unknown"]],
    "Generalizability Gap"),
  (seqs [aw ["difficult", "challenging", "problematic"], lit " to ",
    aw ["compare", "replicate", "reproduce", "generalize"]],
    "Reproducibility Challenge"),
  (seqs [aw ["need", "requirement"], lit " for ",
    aw ["novel", "improved", "better", "alternative"], lit " ",
    aw ["methods", "approaches", "techniques", "methodologies"]],
    "Method Innovation Need"),
  (seqs [aw ["limitation", "constraint", "weakness", "shortcoming"],
    opt (lit "s"), lit " of ", aw ["this", "the", "our", "current",
        "present"], lit " ",
    aw ["study", "research", "investigation", "work", "analysis"]],
    "Study Limitation"),
  (seqs [aw ["this", "our", "the present"], lit " ",
    aw ["study", "research"], lit " ", aw ["has", "had", "suffers from"],
    lit " ", aw ["several", "some", "certain", "important", "significant"],
    lit " ", aw ["limitations", "constraints", "shortcomings"]],
    "Explicit Limitation"),
  (seqs [aw ["caution", "care", "carefulness"], lit " ",
    aw ["should", "must", "needs to"], lit " be ",
    aw ["exercised", "taken", "applied"], lit " when ",
    aw ["interpreting", "generalizing", "extrapolating", "applying"]],
    "Interpretation Caution"),
  (seqs [aw ["results", "findings"], lit " ",
    aw ["may not", "might not", "do not"], lit " ",
    aw ["generalize", "apply", "extend"], lit " to"],
    "Generalization Boundary"),
  (seqs [aw ["unresolved", "open", "outstanding", "pressing", "important"],
    lit " ", aw ["issues", "questions", "problems", "challenges",
        "questions remain"]], "Open Question"),
  (seqs [aw ["key", "important", "critical", "fundamental", "essential"],
    lit " ", aw ["questions", "issues", "aspects"], lit " ",
    aw ["remain", "are"], lit " ",
    aw ["unanswered", "unresolved", "open", "pending"]],
    "Critical Open Question"),
  (seqs [lit "it ", aw ["remains", "is"], lit " ",
    aw ["unclear", "unknown", "uncertain", "to be determined",
        "an open question"]], "Status Unknown"),
  (seqs [aw ["whether", "how", "why", "what", "to what extent"], lit " ",
    dotRange 1 60, lit " ", aw ["remains", "is"], lit " ",
    aw ["unclear", "unknown", "uncertain", "to be seen"]],
    "Specific Unknown"),
  (seqs [aw ["theoretical", "conceptual", "framework"], lit " ",
    aw ["gap", "limitation", "weakness", "issue"]], "Theoretical Gap"),
  (seqs [lit "lack of ", aw ["theoretical", "conceptual"], lit " ",
    aw ["framework", "understanding", "foundation", "clarity"]],
    "Theory Gap"),
  (seqs [aw ["inadequate", "insufficient"], lit " ",
    aw ["theoretical", "conceptual"], lit " ",
    aw ["development", "foundation", "grounding"]],
    "Theory Development Gap")]

/-- `get_emerging_gap_patterns()`. -/
def emergingGapPatterns : List (RE × String) := [
  (seqs [aw ["environmental", "sustainability", "climate", "carbon"],
    lit " ", aw ["impact", "footprint", "implications"], lit " ",
    aw ["not", "never", "rarely"], lit " ",
    aw ["considered", "assessed", "evaluated", "studied"]],
    "Sustainability Gap"),
  (seqs [aw ["green", "sustainable", "eco-friendly"], lit " ",
    aw ["alternatives", "solutions", "approaches"], lit " ",
    aw ["needed", "required", "lacking"]], "Environmental Solution Gap"),
  (seqs [aw ["health", "research", "knowledge"], lit " ",
    aw ["equity", "disparity", "inequity"]], "Equity Gap"),
  (seqs [aw ["underrepresented", "marginalized", "minority"], lit " ",
    aw ["populations", "groups", "communities"]], "Representation Gap"),
  (seqs [aw ["interdisciplinary", "cross-disciplinary",
      "multidisciplinary"], lit " ",
    aw ["approach", "perspective", "collaboration"], lit " ",
    aw ["needed", "lacking", "absent"]], "Interdisciplinary Gap"),
  (seqs [lit "integration of ", dotRange 1 40, lit " with ", dotRange 1 40,
    lit " ", aw ["remains", "is"], lit " ",
    aw ["limited", "underexplored"]], "Integration Gap")]

/-- The AI/ML trigger terms for domain-specific pattern selection. -/
def techTerms : List String :=
  ["ai", "artificial intelligence", "machine learning", "deep learning",
   "neural network", "algorithm", "computational", "model", "prediction",
   "classification", "regression", "nlp", "computer vision"]

/-- The clinical trigger terms. -/
def clinicalTerms : List String :=
  ["patient", "clinical", "treatment", "therapy", "disease",
   "diagnosis", "medical", "hospital", "health", "medicine",
   "drug", "surgical", "symptom", "prognosis", "biomarker"]

/-- Python `needle in hay` on strings. -/
def containsSubAux (needle : List Char) : List Char → Bool
  | [] => needle.isEmpty
  | l@(_ :: t) => needle.isPrefixOf l || containsSubAux needle t

/-- Python `needle in hay`. -/
def inStr (needle hay : String) : Bool := containsSubAux needle.toList hay.toList

/-- The merged pattern dictionary of `analyze_research_gaps`: general
patterns, then the AI pack when the query holds a tech term, then the
clinical pack when it holds a clinical term, then the emerging pack
(all pattern keys are distinct strings, so `dict.update` keeps insertion
order and never overwrites). -/
def mergedPatterns (query : String) : List (RE × String) :=
  let ql := String.mk (lowerL query.toList)
  let techScore := (techTerms.filter (fun t => inStr t ql)).length
  let clinicalScore := (clinicalTerms.filter (fun t => inStr t ql)).length
  generalGapPatterns ++
    (if 0 < techScore then aiGapPatterns else []) ++
    (if 0 < clinicalScore then clinicalGapPatterns else []) ++
    emergingGapPatterns

/-! ## The sentence analyzer (`GapSentenceAnalyzer`) -/

/-- Python `\w`: `[a-zA-Z0-9_]` (ASCII). -/
def isWordChar (c : Char) : Bool := isAlnumAscii c || c == '_'

/-- Maximal runs of characters satisfying `p` (the list of matches of
`p+`), used for `re.findall(r'\b\w+\b', s)` and for `str.split()`. -/
def runsOfAux (p : Char → Bool) : List Char → List Char → List String → List String
  | [], cur, acc => if cur.isEmpty then acc else acc ++ [String.mk cur.reverse]
  | c :: t, cur, acc =>
      if p c then runsOfAux p t (c :: cur) acc
      else runsOfAux p t [] (if cur.isEmpty then acc else acc ++ [String.mk cur.reverse])

def runsOf (p : Char → Bool) (l : List Char) : List String := runsOfAux p l [] []

/-- `re.findall(r'\b\w+\b', s)`: the maximal word-character runs. -/
def tokenize (l : List Char) : List String := runsOf isWordChar l

/-- Python `s.split()` with no argument: maximal non-whitespace runs. -/
def pySplitWs (s : String) : List String := runsOf (fun c => !pyWs c) s.toList

/-- `self.negation_terms` (a Python set; only membership of single
`\w+` tokens is ever tested against it, so the contraction entries with
apostrophes can never match, exactly as in the source). -/
def negationTerms : List String :=
  ["not", "no", "never", "neither", "nor", "none", "nothing", "nobody",
   "nowhere", "hardly", "scarcely", "barely", "don't", "doesn't",
   "didn't", "won't", "wouldn't", "shouldn't", "couldn't", "can't",
   "isn't", "aren't", "wasn't", "weren't", "hasn't", "haven't",
   "hadn't", "lack", "lacking", "absence", "absent", "without"]

/-- `self.uncertainty_terms`. -/
def uncertaintyTerms : List String :=
  ["unclear", "unknown", "uncertain", "ambiguous", "obscure", "vague",
   "puzzling", "perplexing", "enigmatic", "mysterious", "debatable",
   "questionable", "doubtful", "dubious", "inconclusive", "unresolved",
   "undetermined", "unverified", "unproven", "speculative", "tentative"]

/-- `self.future_oriented` (the two-word entry can never match a single
token, exactly as in the source). -/
def futureOrientedTerms : List String :=
  ["future", "further", "next", "subsequent", "forthcoming", "upcoming",
   "prospective", "planned", "intended", "proposed", "recommended",
   "suggested", "should", "needs to", "must", "require", "warrant"]

/-- The `certainty_markers` of `_calculate_certainty`. -/
def certaintyMarkers : List String :=
  ["definitely", "certainly", "clearly", "obviously", "demonstrably",
   "proven", "established", "confirmed", "verified", "conclusive"]

/-- The `recommendation_starters` of `_is_recommendation`. -/
def recommendationStarters : List String :=
  ["we recommend", "it is recommended", "future work should",
   "researchers should", "studies should", "further research",
   "future studies", "investigation should", "attention should"]

/-- The `limitation_indicators` of `_is_limitation`. -/
def limitationIndicators : List String :=
  ["limitation", "limited by", "constrained by", "restricted by",
   "hindered by", "hampered by", "impeded by", "bottleneck"]

/-- The `SentenceAnalysis` record returned by `analyze_sentence`. -/
structure SentAnalysis where
  has_negation : Bool
  has_uncertainty : Bool
  is_future_oriented : Bool
  sentence_length : Nat
  word_count : Nat
  complexity_score : Frac
  certainty_score : Frac
  is_recommendation : Bool
  is_limitation : Bool
  confidence : Frac
deriving DecidableEq, Repr

/-- `_calculate_complexity`. -/
def complexityScore (sentence : String) : Frac :=
  let words := pySplitWs sentence
  if words.isEmpty then ⟨0, 1⟩
  else
    let avg : Frac :=
      Frac.divNat (Frac.ofNat (words.foldl (fun a w => a + w.toList.length) 0))
        words.length
    let clauses : Nat :=
      (sentence.toList.filter
        (fun c => c == ',' || c == ';' || c == ':' || c == '.')).length + 1
    Frac.pyRound 2
      (Frac.fmin ⟨1, 1⟩
        (Frac.mul (Frac.divNat avg 10) (Frac.divNat (Frac.ofNat clauses) 5)))

/-- `_calculate_certainty` over the lowercased sentence. -/
def certaintyScore (sentenceLower : String) : Frac :=
  let unc := (uncertaintyTerms.filter (fun t => inStr t sentenceLower)).length
  let cert := (certaintyMarkers.filter (fun t => inStr t sentenceLower)).length
  Frac.fmax ⟨0, 1⟩ (Frac.fmin ⟨1, 1⟩
    (Frac.add ⟨5, 10⟩
      (Frac.mul (Frac.sub (Frac.ofNat cert) (Frac.ofNat unc)) ⟨1, 10⟩)))

/-- `_calculate_confidence`, as a function of the five analysis inputs
it reads: start at 0.5; +0.2 for negation together with uncertainty;
+0.15 for future orientation; -0.1 for fewer than 8 words; +0.1 for a
recommendation; +0.1 for a limitation; clamp to [0, 1]; round to 2
decimals. -/
def confCombine (hasNeg hasUnc fut : Bool) (sentLen : Nat)
    (isRec isLim : Bool) : Frac :=
  let s0 : Frac := ⟨5, 10⟩
  let s1 := if hasNeg && hasUnc then Frac.add s0 ⟨2, 10⟩ else s0
  let s2 := if fut then Frac.add s1 ⟨15, 100⟩ else s1
  let s3 := if sentLen < 8 then Frac.sub s2 ⟨1, 10⟩ else s2
  let s4 := if isRec then Frac.add s3 ⟨1, 10⟩ else s3
  let s5 := if isLim then Frac.add s4 ⟨1, 10⟩ else s4
  Frac.pyRound 2 (Frac.fmax ⟨0, 1⟩ (Frac.fmin ⟨1, 1⟩ s5))

/-- `GapSentenceAnalyzer.analyze_sentence`. -/
def analyzeSentence (sentence : String) : SentAnalysis :=
  let sl := String.mk (lowerL sentence.toList)
  let words := (tokenize sl.toList).eraseDups
  let hasNeg := words.any (fun w => negationTerms.contains w)
  let hasUnc := words.any (fun w => uncertaintyTerms.contains w)
  let fut := words.any (fun w => futureOrientedTerms.contains w)
  let sentLen := (pySplitWs sentence).length
  let isRec := recommendationStarters.any (fun t => inStr t sl)
  let isLim := limitationIndicators.any (fun t => inStr t sl)
  { has_negation := hasNeg,
    has_uncertainty := hasUnc,
    is_future_oriented := fut,
    sentence_length := sentLen,
    word_count := words.length,
    complexity_score := complexityScore sentence,
    certainty_score := certaintyScore sl,
    is_recommendation := isRec,
    is_limitation := isLim,
    confidence := confCombine hasNeg hasUnc fut sentLen isRec isLim }

/-! ## Semantic similarity and clustering
(`calculate_semantic_similarity`, `cluster_similar_gaps`) -/

/-- The stopword set of `calculate_semantic_similarity.preprocess`. -/
def simStopwords : List String :=
  ["the", "a", "an", "is", "are", "was", "were", "be", "been",
   "being", "have", "has", "had", "do", "does", "did", "will",
   "would", "could", "should", "may", "might", "must", "shall",
   "can", "need", "dare", "ought", "used", "to", "of", "in",
   "for", "on", "with", "at", "by", "from", "as", "into",
   "through", "during", "before", "after", "above", "below",
   "between", "under", "again", "further", "then", "once", "and",
   "but", "if", "or", "because", "until", "while", "so", "than",
   "that", "this", "these", "those", "i", "me", "my", "myself",
   "we", "our", "ours", "ourselves", "you", "your", "yours",
   "it", "its", "itself", "they", "them", "their", "theirs"]

/-- `preprocess`: tokenized lowercase words, stopwords and words of
length <= 2 removed, as a set (a duplicate-free list). -/
def preprocessSim (text : String) : List String :=
  ((tokenize (lowerL text.toList)).filter
    (fun w => !(simStopwords.contains w) && 2 < w.toList.length)).eraseDups

/-- `get_bigrams`: the set of adjacent token pairs joined by a space. -/
def bigramsOf (text : String) : List String :=
  let ws := tokenize (lowerL text.toList)
  ((ws.zip (ws.drop 1)).map (fun pr => pr.1 ++ " " ++ pr.2)).eraseDups

/-- The size of the intersection of two duplicate-free lists. -/
def interCount (a b : List String) : Nat := (a.filter (fun x => b.contains x)).length

/-- The size of the union of two duplicate-free lists. -/
def unionCount (a b : List String) : Nat :=
  a.length + (b.filter (fun x => !(a.contains x))).length

/-- `calculate_semantic_similarity`: 0.6 * Jaccard over stopword-filtered
word sets + 0.4 * bigram overlap, rounded to 3 decimals (0.0 outright
when either word set is empty). -/
def calcSimilarity (g1 g2 : String) : Frac :=
  let s1 := preprocessSim g1
  let s2 := preprocessSim g2
  if s1.isEmpty || s2.isEmpty then ⟨0, 1⟩
  else
    let inter := interCount s1 s2
    let uni := unionCount s1 s2
    let jaccard : Frac :=
      if 0 < uni then Frac.divNat (Frac.ofNat inter) uni else ⟨0, 1⟩
    let b1 := bigramsOf g1
    let b2 := bigramsOf g2
    let bigramSim : Frac :=
      if !b1.isEmpty && !b2.isEmpty then
        Frac.divNat (Frac.ofNat (interCount b1 b2)) (max b1.length b2.length)
      else ⟨0, 1⟩
    Frac.pyRound 3 (Frac.add (Frac.mul ⟨6, 10⟩ jaccard) (Frac.mul ⟨4, 10⟩ bigramSim))

/-- One emitted gap statement (`gap_entry` of `analyze_research_gaps`;
`keywords` and `pattern_matched` are diagnostic strings no later
computation reads, and are omitted). -/
structure Gap where
  title : String
  gap_statement : String
  year : PyVal
  category : String
  subcategory : String
  citations : PyVal
  doi : String
  venue : String
  analysis : SentAnalysis
  cluster_size : Option Nat := none
  cluster_members : List String := []
deriving DecidableEq, Repr

def defaultAnalysis : SentAnalysis :=
  { has_negation := false, has_uncertainty := false, is_future_oriented := false,
    sentence_length := 0, word_count := 0, complexity_score := ⟨0, 1⟩,
    certainty_score := ⟨0, 1⟩, is_recommendation := false, is_limitation := false,
    confidence := ⟨0, 1⟩ }

def defaultGap : Gap :=
  { title := "", gap_statement := "", year := .str "", category := "",
    subcategory := "", citations := .int 0, doi := "", venue := "",
    analysis := defaultAnalysis }

/-- The gap statement of `gaps[i]` (indices produced by the clustering
loop are always in range). -/
def stmtAt (gaps : List Gap) (i : Nat) : String :=
  (gaps.getD i defaultGap).gap_statement

/-- The inner loop of `cluster_similar_gaps`: the later, still
unclustered indices whose similarity **to the seed** `i` reaches the
threshold.  Marking happens per index, so filtering against the visited
state at loop entry is exact. -/
def absorbList (gaps : List Gap) (t : Frac) (i : Nat) (visited : Nat → Bool) :
    List Nat :=
  (List.range' (i + 1) (gaps.length - (i + 1))).filter
    (fun j => !visited j && Frac.le t (calcSimilarity (stmtAt gaps i) (stmtAt gaps j)))

/-- The outer loop of `cluster_similar_gaps` over indices `i`, with the
visited array as a function; fuel counts the remaining indices. -/
def clusterLoop (gaps : List Gap) (t : Frac) :
    Nat → Nat → (Nat → Bool) → List (List Nat)
  | 0, _, _ => []
  | fuel + 1, i, visited =>
      if i < gaps.length then
        if visited i then clusterLoop gaps t fuel (i + 1) visited
        else
          let ab := absorbList gaps t i visited
          (i :: ab) :: clusterLoop gaps t fuel (i + 1)
            (fun j => if j == i || ab.contains j then true else visited j)
      else []

/-- `cluster_similar_gaps`' cluster construction, as index lists. -/
def buildClusters (gaps : List Gap) (t : Frac) : List (List Nat) :=
  clusterLoop gaps t gaps.length 0 (fun _ => false)

/-- Python `int(v)` on the heterogeneous `citations` value: ints pass
through, strings parse as an optionally signed decimal after stripping
whitespace, anything else raises `ValueError`. -/
def pyIntOfPyVal : PyVal → Except String Int
  | .int n => .ok n
  | .str s =>
      let t := stripL s.toList
      let core : List Char × Bool :=
        match t with
        | '-' :: rest => (rest, true)
        | '+' :: rest => (rest, false)
        | l => (l, false)
      if !core.1.isEmpty && core.1.all (fun c => c.isDigit) then
        let v : Int :=
          (core.1.foldl (fun a c => a * 10 + (c.toNat - ('0').toNat)) 0 : Nat)
        .ok (if core.2 then -v else v)
      else .error ("ValueError: invalid literal for int() with base 10: " ++ s)

/-- Python `v.isdigit()` on a heterogeneous value: an `AttributeError`
when the value is an int. -/
def pyIsdigitOf : PyVal → Except String Bool
  | .str s => .ok (pyIsDigit s)
  | .int _ => .error "AttributeError: int object has no attribute isdigit"

/-- Python `max(pairs-by-key)`: the first element attaining the maximum
key (replace only on strictly greater). -/
def pickMaxFirst : List (Gap × Frac) → Gap
  | [] => defaultGap
  | x :: rest =>
      (rest.foldl (fun best cand => if Frac.lt best.2 cand.2 then cand else best) x).1

/-- Python `s[:100] + '...'`. -/
def truncPreview (s : String) : String := String.mk (s.toList.take 100) ++ "..."

/-- Effectful map over `Except` (what `List.mapM` does for this monad):
apply `f` left to right, the first error aborting, exactly the order in
which CPython's per-element `int(...)` calls raise. -/
def mapE {α β : Type} (f : α → Except String β) : List α → Except String (List β)
  | [] => .ok []
  | x :: t => do
      let y ← f x
      let ys ← mapE f t
      pure (y :: ys)

/-- Selecting the representative of one cluster: `max(cluster, key=
int(citations) + confidence * 100)` — the `int(...)` raises on a
non-numeric citations string — then attaching `cluster_size` and the
truncated member previews. -/
def repOfCluster (gaps : List Gap) (cluster : List Nat) : Except String Gap := do
  let members := cluster.map (fun j => gaps.getD j defaultGap)
  let keyed ← mapE (fun g => do
    let c ← pyIntOfPyVal g.citations
    pure (g, Frac.add (Frac.ofInt c) (Frac.mul g.analysis.confidence ⟨100, 1⟩))) members
  let best := pickMaxFirst keyed
  pure { best with
    cluster_size := some members.length,
    cluster_members := members.map (fun c => truncPreview c.gap_statement) }

/-- `analyze_research_gaps.composite_score`: `int(citations) +
confidence*100 + (50 if year.isdigit() and int(year) >= 2020 else 0) +
cluster_size*10`; `year.isdigit()` raises on an int-valued year. -/
def compositeScore (g : Gap) : Except String Frac := do
  let cit ← pyIntOfPyVal g.citations
  let conf := g.analysis.confidence
  let isd ← pyIsdigitOf g.year
  let recency : Frac :=
    if isd && decide (2020 ≤ digitsToNat (pyStr g.year)) then ⟨50, 1⟩ else ⟨0, 1⟩
  let clusterBonus := Frac.ofNat ((g.cluster_size.getD 1) * 10)
  pure (Frac.add (Frac.add (Frac.add (Frac.ofInt cit)
    (Frac.mul conf ⟨100, 1⟩)) recency) clusterBonus)

/-- Stable descending insertion by key (Python `sorted(...,
reverse=True)` keeps the original order among equal keys). -/
def insertDescFrac (x : Gap × Frac) : List (Gap × Frac) → List (Gap × Frac)
  | [] => [x]
  | y :: ys =>
      if Frac.lt x.2 y.2 then y :: insertDescFrac x ys else x :: y :: ys

/-! ## The gap mining pipeline (`analyze_research_gaps`) -/

/-- State of the sentence splitter: the previous character, the current
segment (reversed), the finished segments, and whether we are inside the
whitespace run of a split point. -/
structure SplitState where
  prev : Char
  cur : List Char
  done : List (List Char)
  skipping : Bool

/-- One character of `re.split(r'(?<=[.!?])\s+', text)`: a whitespace
character after `.`, `!` or `?` opens a split and the whole whitespace
run is consumed; every other character extends the current segment. -/
def splitStep (st : SplitState) (c : Char) : SplitState :=
  if st.skipping then
    if pyWs c then st
    else { prev := c, cur := [c], done := st.done, skipping := false }
  else if pyWs c && (st.prev == '.' || st.prev == '!' || st.prev == '?') then
    { prev := c, cur := [], done := st.done ++ [st.cur.reverse], skipping := true }
  else { prev := c, cur := c :: st.cur, done := st.done, skipping := false }

/-- `re.split(r'(?<=[.!?])\s+', text)`. -/
def splitSentences (text : String) : List String :=
  let fin := text.toList.foldl splitStep ⟨Char.ofNat 0, [], [], false⟩
  (fin.done ++ [fin.cur.reverse]).map String.mk

/-- Python truthiness of an optional string field. -/
def truthyStr : Option String → Bool
  | none => false
  | some s => !s.toList.isEmpty

/-- `text = f"{paper.get('tldr', '')} {paper.get('abstract', '')}"`,
split into sentences. -/
def sentencesOf (p : Paper) : List String :=
  splitSentences (p.tldr.getD "" ++ " " ++ p.abstract.getD "")

/-- `categorize_gap_detailed`. -/
def categorizeGapDetailed (sentence : String) (parentCategory : String) : String :=
  let sl := String.mk (lowerL sentence.toList)
  if ["long-term", "longitudinal", "future", "prospective"].any
      (fun w => inStr w sl) then parentCategory ++ " - Temporal"
  else if ["population", "patient", "participant", "subject", "demographic"].any
      (fun w => inStr w sl) then parentCategory ++ " - Population-specific"
  else if ["method", "approach", "technique", "methodology", "design"].any
      (fun w => inStr w sl) then parentCategory ++ " - Methodological"
  else if ["large-scale", "small-scale", "sample size", "underpowered"].any
      (fun w => inStr w sl) then parentCategory ++ " - Scale-related"
  else parentCategory

/-- The `gap_entry` dict built on a pattern match (bibliographic fields
carried raw from the paper, with the source's `dict.get` defaults). -/
def mkGapEntry (p : Paper) (sentence : String) (category : String)
    (a : SentAnalysis) : Gap :=
  { title := p.title,
    gap_statement := sentence,
    year := p.year.getD (.str "N/A"),
    category := category,
    subcategory := categorizeGapDetailed sentence category,
    citations := p.citations.getD (.int 0),
    doi := p.doi.getD "N/A",
    venue := p.venue.getD "N/A",
    analysis := a }

/-- The pattern loop over one eligible sentence: on a match, analyze;
below the confidence threshold `continue` to the next pattern (the
analysis does not depend on the pattern, so a low-confidence sentence is
never emitted); otherwise emit and `break`. -/
def findGapAux (p : Paper) (mc : Frac) (s : String) :
    List (RE × String) → Option Gap
  | [] => none
  | (r, catg) :: rest =>
      if reSearch r s then
        let a := analyzeSentence s
        if Frac.lt a.confidence mc then findGapAux p mc s rest
        else some (mkGapEntry p s catg a)
      else findGapAux p mc s rest

/-- One sentence of the per-paper loop: strip, reject fewer than 5
words or more than 500 characters, else run the pattern loop. -/
def perSentence (p : Paper) (pats : List (RE × String)) (mc : Frac)
    (raw : String) : Option Gap :=
  let s := pyStrip raw
  if (pySplitWs s).length < 5 || 500 < s.toList.length then none
  else findGapAux p mc s pats

/-- `found_gaps`: the emitted gap statements of the whole corpus, in
emission order (papers with a truthy abstract or tldr, their sentences
in order, at most one gap per sentence). -/
def foundGaps (results : List Paper) (query : String) (mc : Frac) : List Gap :=
  let pats := mergedPatterns query
  (results.filter (fun p => truthyStr p.abstract || truthyStr p.tldr)).flatMap
    (fun p => (sentencesOf p).filterMap (fun s => perSentence p pats mc s))

/-- A `collections.Counter` built in first-appearance order. -/
def counterOf (l : List String) : List (String × Nat) :=
  l.foldl (fun acc s =>
    if acc.any (fun kv => kv.1 == s) then
      acc.map (fun kv => if kv.1 == s then (kv.1, kv.2 + 1) else kv)
    else acc ++ [(s, 1)]) []

/-- The fields of the returned report that later code reads (the purely
diagnostic keyword/temporal/author tables are omitted; none of them can
raise and no claim mentions them). -/
structure GapReport where
  total_gaps_found : Nat
  unique_gaps_after_clustering : Nat
  gap_list : List Gap
  gap_categories : List (String × Nat)
  papers_analyzed : Nat
  sentences_analyzed : Nat
  high_impact_gaps : Nat
  high_confidence_gaps : Nat
deriving DecidableEq, Repr

/-- `analyze_research_gaps(results, query, min_confidence)`.  The
fallible spots are exactly the source's unguarded coercions:
`int(citations)` in the cluster-representative key and in the composite
sort key and the high-impact count, and `year.isdigit()` on a
non-string year in the composite key; each surfaces in input order, as
in CPython. -/
def analyze_research_gaps (results : List Paper) (query : String)
    (mc : Frac := ⟨3, 10⟩) : Except String GapReport := do
  let papersWithText := results.filter
    (fun p => truthyStr p.abstract || truthyStr p.tldr)
  let found := foundGaps results query mc
  let clusters := buildClusters found ⟨65, 100⟩
  let reps ← mapE (repOfCluster found) clusters
  let keyed ← mapE (fun g => do
    let k ← compositeScore g
    pure (g, k)) reps
  let sortedGaps := (keyed.foldr insertDescFrac []).map (fun x => x.1)
  let impactCounts ← mapE (fun g => pyIntOfPyVal g.citations) sortedGaps
  pure {
    total_gaps_found := found.length,
    unique_gaps_after_clustering := clusters.length,
    gap_list := sortedGaps,
    gap_categories := counterOf (found.map (fun g => g.category)),
    papers_analyzed := papersWithText.length,
    sentences_analyzed :=
      papersWithText.foldl (fun a p => a + (sentencesOf p).length) 0,
    high_impact_gaps := (impactCounts.filter (fun c => 100 ≤ c)).length,
    high_confidence_gaps :=
      (sortedGaps.filter (fun g => Frac.le ⟨7, 10⟩ g.analysis.confidence)).length }

/-! ## The unfiltered emission (refinement comparator)

Modelled from the spec's words, for C4 and C10: "with `min_confidence=0.0`
[the miner] returns every pattern match regardless of analyzer score" —
the same per-sentence loop with the confidence test removed. -/

/-- Modelled from the spec: the pattern loop with no confidence filter. -/
def findGapNF (p : Paper) (s : String) : List (RE × String) → Option Gap
  | [] => none
  | (r, catg) :: rest =>
      if reSearch r s then some (mkGapEntry p s catg (analyzeSentence s))
      else findGapNF p s rest

/-- Modelled from the spec: one sentence, eligibility as in the code,
no confidence filter. -/
def perSentenceNF (p : Paper) (pats : List (RE × String)) (raw : String) :
    Option Gap :=
  let s := pyStrip raw
  if (pySplitWs s).length < 5 || 500 < s.toList.length then none
  else findGapNF p s pats

/-- Modelled from the spec: every pattern match of the corpus, no
confidence filter. -/
def allPatternMatches (results : List Paper) (query : String) : List Gap :=
  let pats := mergedPatterns query
  (results.filter (fun p => truthyStr p.abstract || truthyStr p.tldr)).flatMap
    (fun p => (sentencesOf p).filterMap (fun s => perSentenceNF p pats s))

/-! ## Value-level facts about `Frac` comparisons -/

namespace Frac

lemma le_iff_toRat (a b : Frac) (ha : 0 < a.den) (hb : 0 < b.den) :
    (le a b = true) ↔ a.toRat ≤ b.toRat := by
  unfold le toRat
  rw [decide_eq_true_eq,
    div_le_div_iff₀ (by exact_mod_cast ha) (by exact_mod_cast hb)]
  constructor
  · intro h; exact_mod_cast h
  · intro h; exact_mod_cast h

lemma lt_iff_toRat (a b : Frac) (ha : 0 < a.den) (hb : 0 < b.den) :
    (lt a b = true) ↔ a.toRat < b.toRat := by
  unfold lt toRat
  rw [decide_eq_true_eq,
    div_lt_div_iff₀ (by exact_mod_cast ha) (by exact_mod_cast hb)]
  constructor
  · intro h; exact_mod_cast h
  · intro h; exact_mod_cast h

end Frac

/-! ## The confidence combinator's range -/

/-- The score starts at 0.5 and can only be lowered by the single 0.1
short-sentence penalty, and only be raised to the 1.0 clamp: whatever
the five inputs, the rounded confidence lies in [0.4, 1]. -/
lemma confCombine_bounds (b1 b2 b3 : Bool) (n : Nat) (b4 b5 : Bool) :
    Frac.le ⟨2, 5⟩ (confCombine b1 b2 b3 n b4 b5) = true ∧
    Frac.le (confCombine b1 b2 b3 n b4 b5) ⟨1, 1⟩ = true := by
  by_cases h : n < 8
  · cases b1 <;> cases b2 <;> cases b3 <;> cases b4 <;> cases b5 <;>
      (simp only [confCombine, if_pos h]; exact ⟨by decide, by decide⟩)
  · cases b1 <;> cases b2 <;> cases b3 <;> cases b4 <;> cases b5 <;>
      (simp only [confCombine, if_neg h]; exact ⟨by decide, by decide⟩)

lemma analyzeSentence_conf_bounds (s : String) :
    Frac.le ⟨2, 5⟩ (analyzeSentence s).confidence = true ∧
    Frac.le (analyzeSentence s).confidence ⟨1, 1⟩ = true :=
  confCombine_bounds _ _ _ _ _ _

lemma analyzeSentence_conf_den (s : String) :
    ((analyzeSentence s).confidence).den = 100 := rfl

/-- The confidence filter can never fire when the threshold does not
exceed 0.4. -/
lemma conf_not_lt (s : String) (mc : Frac) (hden : 0 < mc.den)
    (hmc : mc.toRat ≤ 2/5) :
    Frac.lt (analyzeSentence s).confidence mc = false := by
  have hge := (analyzeSentence_conf_bounds s).1
  have hcd : (0 : Nat) < ((analyzeSentence s).confidence).den := by
    rw [analyzeSentence_conf_den]; omega
  have h1 : (⟨2, 5⟩ : Frac).toRat ≤ ((analyzeSentence s).confidence).toRat :=
    (Frac.le_iff_toRat ⟨2, 5⟩ _ (by norm_num) hcd).mp hge
  have h2 : (⟨2, 5⟩ : Frac).toRat = 2/5 := by norm_num [Frac.toRat]
  cases hb : Frac.lt ((analyzeSentence s).confidence) mc
  · rfl
  · have := (Frac.lt_iff_toRat _ _ hcd hden).mp hb
    rw [h2] at h1
    linarith

/-- The confidence filter always fires at a threshold above 1. -/
lemma conf_lt_eleven_tenths (s : String) :
    Frac.lt (analyzeSentence s).confidence ⟨11, 10⟩ = true := by
  have hle := (analyzeSentence_conf_bounds s).2
  have hcd : (0 : Nat) < ((analyzeSentence s).confidence).den := by
    rw [analyzeSentence_conf_den]; omega
  have h1 : ((analyzeSentence s).confidence).toRat ≤ (⟨1, 1⟩ : Frac).toRat :=
    (Frac.le_iff_toRat _ ⟨1, 1⟩ hcd (by norm_num)).mp hle
  refine (Frac.lt_iff_toRat _ ⟨11, 10⟩ hcd (by norm_num)).mpr ?_
  have h2 : (⟨1, 1⟩ : Frac).toRat = 1 := by norm_num [Frac.toRat]
  have h3 : (⟨11, 10⟩ : Frac).toRat = 11/10 := by norm_num [Frac.toRat]
  rw [h3]; rw [h2] at h1; linarith

/-! ## Pointwise congruence helpers -/

lemma filterMap_ext {α β : Type} (f g : α → Option β) (l : List α)
    (h : ∀ x ∈ l, f x = g x) : l.filterMap f = l.filterMap g := by
  induction l with
  | nil => rfl
  | cons x t ih =>
      simp only [List.filterMap]
      rw [h x (List.mem_cons_self x t), ih (fun y hy => h y (List.mem_cons_of_mem x hy))]

lemma flatMap_ext {α β : Type} (f g : α → List β) (l : List α)
    (h : ∀ x ∈ l, f x = g x) : l.flatMap f = l.flatMap g := by
  induction l with
  | nil => rfl
  | cons x t ih =>
      simp only [List.flatMap_cons]
      rw [h x (List.mem_cons_self x t), ih (fun y hy => h y (List.mem_cons_of_mem x hy))]

lemma filterMap_all_none {α β : Type} (f : α → Option β) (l : List α)
    (h : ∀ x ∈ l, f x = none) : l.filterMap f = [] := by
  induction l with
  | nil => rfl
  | cons x t ih =>
      simp only [List.filterMap]
      rw [h x (List.mem_cons_self x t)]
      exact ih (fun y hy => h y (List.mem_cons_of_mem x hy))

lemma flatMap_all_nil {α β : Type} (f : α → List β) (l : List α)
    (h : ∀ x ∈ l, f x = []) : l.flatMap f = [] := by
  induction l with
  | nil => rfl
  | cons x t ih =>
      simp only [List.flatMap_cons]
      rw [h x (List.mem_cons_self x t),
        ih (fun y hy => h y (List.mem_cons_of_mem x hy))]
      rfl

/-! ## The pattern loop under a vacuous or an unsatisfiable filter -/

/-- Below-threshold never happens: the pattern loop equals the
unfiltered loop (the analysis does not depend on the pattern). -/
lemma findGapAux_eq_noFilter (p : Paper) (mc : Frac) (s : String)
    (h : Frac.lt (analyzeSentence s).confidence mc = false) :
    ∀ pats, findGapAux p mc s pats = findGapNF p s pats := by
  intro pats
  induction pats with
  | nil => rfl
  | cons pc rest ih =>
      obtain ⟨r, catg⟩ := pc
      simp only [findGapAux, findGapNF]
      by_cases hm : reSearch r s = true
      · simp [hm, h]
      · simp only [Bool.not_eq_true] at hm
        simp [hm, ih]

lemma perSentence_eq_noFilter (p : Paper) (pats : List (RE × String)) (mc : Frac)
    (raw : String)
    (h : ∀ s, Frac.lt (analyzeSentence s).confidence mc = false) :
    perSentence p pats mc raw = perSentenceNF p pats raw := by
  simp only [perSentence, perSentenceNF]
  split
  · rfl
  · exact findGapAux_eq_noFilter p mc (pyStrip raw) (h (pyStrip raw)) pats

lemma foundGaps_eq_noFilter (results : List Paper) (query : String) (mc : Frac)
    (h : ∀ s, Frac.lt (analyzeSentence s).confidence mc = false) :
    foundGaps results query mc = allPatternMatches results query := by
  unfold foundGaps allPatternMatches
  refine flatMap_ext _ _ _ (fun p _ => ?_)
  exact filterMap_ext _ _ _
    (fun s _ => perSentence_eq_noFilter p (mergedPatterns query) mc s h)

/-- Above every possible confidence: the loop emits nothing. -/
lemma findGapAux_none (p : Paper) (mc : Frac) (s : String)
    (h : Frac.lt (analyzeSentence s).confidence mc = true) :
    ∀ pats, findGapAux p mc s pats = none := by
  intro pats
  induction pats with
  | nil => rfl
  | cons pc rest ih =>
      obtain ⟨r, catg⟩ := pc
      simp only [findGapAux]
      by_cases hm : reSearch r s = true
      · simp [hm, h, ih]
      · simp only [Bool.not_eq_true] at hm
        simp [hm, ih]

lemma foundGaps_nil_at_eleven_tenths (results : List Paper) (query : String) :
    foundGaps results query ⟨11, 10⟩ = [] := by
  unfold foundGaps
  refine flatMap_all_nil _ _ (fun p _ => ?_)
  refine filterMap_all_none _ _ (fun s _ => ?_)
  simp only [perSentence]
  split
  · rfl
  · exact findGapAux_none p ⟨11, 10⟩ (pyStrip s)
      (conf_lt_eleven_tenths (pyStrip s)) _

/-! ## Claim C10: the implicit confidence floor -/

/-- C10: every analyzed sentence's confidence lies in [0.4, 1] — the
0.5 base can only be lowered by the single 0.1 short-sentence penalty —
so a run whose `min_confidence` does not exceed 0.4 (the default is 0.3)
never discards a pattern match on confidence grounds: its emitted gaps
are exactly the unfiltered pattern matches. -/
theorem c10_confidence_floor_filter_vacuous :
    (∀ s : String,
        (2 : ℚ)/5 ≤ ((analyzeSentence s).confidence).toRat ∧
        ((analyzeSentence s).confidence).toRat ≤ 1) ∧
    (∀ (results : List Paper) (query : String) (mc : Frac),
        0 < mc.den → mc.toRat ≤ 2/5 →
        foundGaps results query mc = allPatternMatches results query) := by
  constructor
  · intro s
    have hb := analyzeSentence_conf_bounds s
    have hcd : (0 : Nat) < ((analyzeSentence s).confidence).den := by
      rw [analyzeSentence_conf_den]; omega
    constructor
    · have := (Frac.le_iff_toRat ⟨2, 5⟩ _ (by norm_num) hcd).mp hb.1
      have h2 : (⟨2, 5⟩ : Frac).toRat = 2/5 := by norm_num [Frac.toRat]
      rw [h2] at this; exact this
    · have := (Frac.le_iff_toRat _ ⟨1, 1⟩ hcd (by norm_num)).mp hb.2
      have h2 : (⟨1, 1⟩ : Frac).toRat = 1 := by norm_num [Frac.toRat]
      rw [h2] at this; exact this
  · intro results query mc hden hmc
    exact foundGaps_eq_noFilter results query mc
      (fun s => conf_not_lt s mc hden hmc)

def c10paper : Paper :=
  { title := "Witness Paper", citations := some (.int 3),
    year := some (.str "2021"),
    abstract := some "Further research is needed on this topic." }

/-- C10 witness: at the default threshold 0.3 on a concrete one-paper
corpus, the filtered and the unfiltered runs coincide. -/
theorem c10_witness :
    (0 : Nat) < (⟨3, 10⟩ : Frac).den ∧ (⟨3, 10⟩ : Frac).toRat ≤ 2/5 ∧
    foundGaps [c10paper] "" ⟨3, 10⟩ = allPatternMatches [c10paper] "" :=
  ⟨by norm_num, by norm_num [Frac.toRat],
   c10_confidence_floor_filter_vacuous.2 [c10paper] "" ⟨3, 10⟩ (by norm_num)
     (by norm_num [Frac.toRat])⟩

/-! ## Claim C4: the confidence filter's bounds -/

/-- C4: with `min_confidence = 1.1` the pipeline reports zero gaps on
every corpus and every query — no sentence's confidence can exceed 1.0 —
and with `min_confidence = 0.0` every sentence pattern match is emitted,
none discarded on confidence grounds. -/
theorem c4_confidence_filter_bounds :
    (∀ (results : List Paper) (query : String),
        ∃ r, analyze_research_gaps results query ⟨11, 10⟩ = .ok r ∧
          r.total_gaps_found = 0 ∧ r.gap_list = []) ∧
    (∀ (results : List Paper) (query : String),
        foundGaps results query ⟨0, 1⟩ = allPatternMatches results query) := by
  constructor
  · intro results query
    have hfound := foundGaps_nil_at_eleven_tenths results query
    have heq : analyze_research_gaps results query ⟨11, 10⟩ =
        .ok { total_gaps_found := 0, unique_gaps_after_clustering := 0,
              gap_list := [], gap_categories := [],
              papers_analyzed := (results.filter
                (fun p => truthyStr p.abstract || truthyStr p.tldr)).length,
              sentences_analyzed := (results.filter
                (fun p => truthyStr p.abstract || truthyStr p.tldr)).foldl
                  (fun a p => a + (sentencesOf p).length) 0,
              high_impact_gaps := 0, high_confidence_gaps := 0 } := by
      simp only [analyze_research_gaps, hfound]
      rfl
    exact ⟨_, heq, rfl, rfl⟩
  · intro results query
    refine foundGaps_eq_noFilter results query ⟨0, 1⟩ (fun s => ?_)
    exact conf_not_lt s ⟨0, 1⟩ (by norm_num) (by norm_num [Frac.toRat])

/-! ## Claim C3: exception-freedom of the gap pipeline -/

/-- The error, if any, of a pipeline run. -/
def gapError : Except String GapReport → Option String
  | .error e => some e
  | .ok _ => none

def c3paper : Paper :=
  { title := "Crashy Paper", citations := some (.str "N/A"),
    year := some (.str "2021"),
    abstract := some "Further research is needed here." }

/-- C3, counterexample: a single well-typed record — `citations` is the
`"N/A"` sentinel the data model allows — whose abstract matches a gap
pattern makes `analyze_research_gaps` raise: the cluster-representative
key `int(x.get('citations', 0))` hits `int("N/A")`, a `ValueError`, so
the pipeline does not complete without an exception. -/
theorem c3_counterexample :
    gapError (analyze_research_gaps [c3paper] "" ⟨3, 10⟩) =
      some "ValueError: invalid literal for int() with base 10: N/A" := by
  decide

/-- The citations value the restricted pipeline accepts: absent, an
int, or an int-parsable string. -/
def citationsIntCoercible : Option PyVal → Bool
  | none => true
  | some v => (pyIntOfPyVal v).isOk

/-- The year value the restricted pipeline accepts: anything but an
int (on which `year.isdigit()` raises `AttributeError`). -/
def yearIsStringy : Option PyVal → Bool
  | some (.int _) => false
  | _ => true

/-- A gap record none of the pipeline's coercions can raise on. -/
def goodGap (g : Gap) : Prop :=
  (pyIntOfPyVal g.citations).isOk = true ∧ (pyIsdigitOf g.year).isOk = true

lemma goodGap_default : goodGap defaultGap := ⟨rfl, rfl⟩

lemma findGapAux_some_fields (p : Paper) (mc : Frac) (s : String) :
    ∀ (pats : List (RE × String)) (g : Gap), findGapAux p mc s pats = some g →
      g.citations = p.citations.getD (.int 0) ∧
      g.year = p.year.getD (.str "N/A") ∧ g.gap_statement = s := by
  intro pats
  induction pats with
  | nil => intro g h; exact absurd h (by simp [findGapAux])
  | cons pc rest ih =>
      obtain ⟨r, catg⟩ := pc
      intro g h
      simp only [findGapAux] at h
      split at h
      · split at h
        · exact ih g h
        · cases h
          exact ⟨rfl, rfl, rfl⟩
      · exact ih g h

lemma perSentence_some_fields (p : Paper) (pats : List (RE × String)) (mc : Frac)
    (raw : String) (g : Gap) (h : perSentence p pats mc raw = some g) :
    g.citations = p.citations.getD (.int 0) ∧
    g.year = p.year.getD (.str "N/A") ∧ g.gap_statement = pyStrip raw := by
  simp only [perSentence] at h
  split at h
  · exact absurd h (by simp)
  · exact findGapAux_some_fields p mc (pyStrip raw) pats g h

lemma foundGaps_good (results : List Paper) (query : String) (mc : Frac)
    (hres : ∀ p ∈ results, citationsIntCoercible p.citations = true ∧
      yearIsStringy p.year = true) :
    ∀ g ∈ foundGaps results query mc, goodGap g := by
  intro g hg
  unfold foundGaps at hg
  rw [List.mem_flatMap] at hg
  obtain ⟨p, hp, hgp⟩ := hg
  rw [List.mem_filterMap] at hgp
  obtain ⟨s, _, hps⟩ := hgp
  have hpmem : p ∈ results := (List.mem_filter.mp hp).1
  obtain ⟨hcit, hyear, _⟩ :=
    perSentence_some_fields p (mergedPatterns query) mc s g hps
  obtain ⟨hc, hy⟩ := hres p hpmem
  constructor
  · rw [hcit]
    cases hv : p.citations with
    | none => rfl
    | some v => rw [hv] at hc; simpa [citationsIntCoercible] using hc
  · rw [hyear]
    cases hv : p.year with
    | none => rfl
    | some v =>
        cases v with
        | int n => rw [hv] at hy; simp [yearIsStringy] at hy
        | str sv => rfl

lemma goodGap_getD (found : List Gap) (h : ∀ g ∈ found, goodGap g) (j : Nat) :
    goodGap (found.getD j defaultGap) := by
  by_cases hj : j < found.length
  · rw [List.getD_eq_getElem found defaultGap hj]
    exact h _ (List.getElem_mem hj)
  · rw [List.getD_eq_default found defaultGap (Nat.le_of_not_lt hj)]
    exact goodGap_default

lemma mapE_ok_of_forall {α β : Type} (f : α → Except String β) (P : β → Prop) :
    ∀ (l : List α), (∀ x ∈ l, ∃ y, f x = .ok y ∧ P y) →
      ∃ ys, mapE f l = .ok ys ∧ ∀ y ∈ ys, P y := by
  intro l
  induction l with
  | nil => exact fun _ => ⟨[], rfl, by simp⟩
  | cons x t ih =>
      intro h
      obtain ⟨y, hy, hPy⟩ := h x (List.mem_cons_self x t)
      obtain ⟨ys, hys, hPs⟩ := ih (fun z hz => h z (List.mem_cons_of_mem x hz))
      refine ⟨y :: ys, ?_, ?_⟩
      · simp only [mapE, hy, hys]; rfl
      · intro z hz
        rcases List.mem_cons.mp hz with rfl | hz2
        · exact hPy
        · exact hPs z hz2

lemma foldl_pick_preserve (P : Gap → Prop) :
    ∀ (l : List (Gap × Frac)) (init : Gap × Frac), P init.1 →
      (∀ x ∈ l, P x.1) →
      P ((l.foldl
        (fun best cand => if Frac.lt best.2 cand.2 then cand else best) init).1) := by
  intro l
  induction l with
  | nil => intro init h _; exact h
  | cons x t ih =>
      intro init hinit h
      rw [List.foldl_cons]
      apply ih
      · dsimp only
        split
        · exact h x (List.mem_cons_self x t)
        · exact hinit
      · exact fun z hz => h z (List.mem_cons_of_mem x hz)

lemma pickMaxFirst_preserve (P : Gap → Prop) (hdef : P defaultGap)
    (l : List (Gap × Frac)) (h : ∀ x ∈ l, P x.1) : P (pickMaxFirst l) := by
  cases l with
  | nil => exact hdef
  | cons x t =>
      exact foldl_pick_preserve P t x (h x (List.mem_cons_self x t))
        (fun z hz => h z (List.mem_cons_of_mem x hz))

lemma repOfCluster_ok (found : List Gap) (hgood : ∀ g ∈ found, goodGap g)
    (c : List Nat) : ∃ rep, repOfCluster found c = .ok rep ∧ goodGap rep := by
  have hmem : ∀ g ∈ c.map (fun j => found.getD j defaultGap), goodGap g := by
    intro g hg
    obtain ⟨j, _, rfl⟩ := List.mem_map.mp hg
    exact goodGap_getD found hgood j
  obtain ⟨keyed, hkeyed, hkP⟩ := mapE_ok_of_forall
    (fun g => do
      let cc ← pyIntOfPyVal g.citations
      pure (g, Frac.add (Frac.ofInt cc) (Frac.mul g.analysis.confidence ⟨100, 1⟩)))
    (fun pr => goodGap pr.1)
    (c.map (fun j => found.getD j defaultGap))
    (fun g hg => by
      obtain ⟨hcit, _⟩ := hmem g hg
      cases hv : pyIntOfPyVal g.citations with
      | error e => rw [hv] at hcit; simp [Except.isOk, Except.toBool] at hcit
      | ok n =>
          exact ⟨(g, Frac.add (Frac.ofInt n)
            (Frac.mul g.analysis.confidence ⟨100, 1⟩)),
            by simp only [hv]; rfl, hmem g hg⟩)
  have hpick : goodGap (pickMaxFirst keyed) :=
    pickMaxFirst_preserve goodGap goodGap_default keyed hkP
  refine ⟨{ pickMaxFirst keyed with
      cluster_size := some (c.map (fun j => found.getD j defaultGap)).length,
      cluster_members := (c.map (fun j => found.getD j defaultGap)).map
        (fun g => truncPreview g.gap_statement) }, ?_, hpick⟩
  simp only [repOfCluster, hkeyed]
  rfl

lemma compositeScore_ok (g : Gap) (h : goodGap g) :
    ∃ k, compositeScore g = .ok k := by
  obtain ⟨h1, h2⟩ := h
  cases hv : pyIntOfPyVal g.citations with
  | error e => rw [hv] at h1; simp [Except.isOk, Except.toBool] at h1
  | ok n =>
      cases hy : pyIsdigitOf g.year with
      | error e => rw [hy] at h2; simp [Except.isOk, Except.toBool] at h2
      | ok b => exact ⟨_, by simp only [compositeScore, hv, hy]; rfl⟩

lemma mem_insertDescFrac (x : Gap × Frac) :
    ∀ (l : List (Gap × Frac)) (z : Gap × Frac), z ∈ insertDescFrac x l →
      z = x ∨ z ∈ l := by
  intro l
  induction l with
  | nil =>
      intro z hz
      simp only [insertDescFrac] at hz
      exact Or.inl (List.mem_singleton.mp hz)
  | cons y ys ih =>
      intro z hz
      simp only [insertDescFrac] at hz
      split at hz
      · rcases List.mem_cons.mp hz with rfl | h2
        · exact Or.inr (List.mem_cons_self _ _)
        · rcases ih z h2 with h3 | h3
          · exact Or.inl h3
          · exact Or.inr (List.mem_cons_of_mem _ h3)
      · rcases List.mem_cons.mp hz with rfl | h2
        · exact Or.inl rfl
        · exact Or.inr h2

lemma mem_foldr_insertDescFrac :
    ∀ (l : List (Gap × Frac)) (z : Gap × Frac),
      z ∈ l.foldr insertDescFrac [] → z ∈ l := by
  intro l
  induction l with
  | nil => intro z hz; exact absurd hz (by simp)
  | cons x t ih =>
      intro z hz
      rw [List.foldr_cons] at hz
      rcases mem_insertDescFrac x _ z hz with rfl | h2
      · exact List.mem_cons_self _ _
      · exact List.mem_cons_of_mem _ (ih z h2)

/-- C3 (amended): the deduplication engine never raises, and the gap
pipeline completes without raising on every input whose records carry
an int-coercible `citations` value and a non-int `year`; with the data
model's full value space the guarantee fails (see the counterexample:
`citations="N/A"` reaches an unguarded `int(...)`). -/
theorem c3_amended_no_raise (results : List Paper) (query : String) (mc : Frac)
    (hres : ∀ p ∈ results, citationsIntCoercible p.citations = true ∧
      yearIsStringy p.year = true) :
    (analyze_research_gaps results query mc).isOk = true := by
  have hgood := foundGaps_good results query mc hres
  obtain ⟨reps, hreps, hrepsP⟩ := mapE_ok_of_forall
    (repOfCluster (foundGaps results query mc)) goodGap
    (buildClusters (foundGaps results query mc) ⟨65, 100⟩)
    (fun c _ => repOfCluster_ok (foundGaps results query mc) hgood c)
  obtain ⟨keyed, hkeyed, hkeyedP⟩ := mapE_ok_of_forall
    (fun g => do
      let k ← compositeScore g
      pure (g, k))
    (fun pr => goodGap pr.1) reps
    (fun g hg => by
      obtain ⟨k, hk⟩ := compositeScore_ok g (hrepsP g hg)
      exact ⟨(g, k), by simp only [hk]; rfl, hrepsP g hg⟩)
  obtain ⟨counts, hcounts, _⟩ := mapE_ok_of_forall
    (fun g => pyIntOfPyVal g.citations) (fun _ => True)
    ((keyed.foldr insertDescFrac []).map (fun x => x.1))
    (fun g hg => by
      obtain ⟨pr, hpr, rfl⟩ := List.mem_map.mp hg
      obtain ⟨h1, _⟩ := hkeyedP pr (mem_foldr_insertDescFrac _ _ hpr)
      cases hv : pyIntOfPyVal pr.1.citations with
      | error e => rw [hv] at h1; simp [Except.isOk, Except.toBool] at h1
      | ok n => exact ⟨n, hv, trivial⟩)
  simp only [bind, Except.bind] at hkeyed
  simp only [analyze_research_gaps, bind, Except.bind, hreps, hkeyed, hcounts]
  rfl

def c3okPaper : Paper :=
  { title := "Clean Paper", citations := some (.str "12"),
    year := some (.str "2021"),
    abstract := some "Further research is needed here." }

/-- C3 witness: the amended theorem applied to a one-record corpus with
an int-parsable citations string and a string year. -/
theorem c3_witness : (analyze_research_gaps [c3okPaper] "" ⟨3, 10⟩).isOk = true :=
  c3_amended_no_raise [c3okPaper] "" ⟨3, 10⟩ (by decide)

/-! ## Claim C5: seed-to-candidate absorption at the threshold -/

lemma clusterLoop_sound (gaps : List Gap) (t : Frac) :
    ∀ (fuel i : Nat) (visited : Nat → Bool) (c : List Nat),
      c ∈ clusterLoop gaps t fuel i visited → ∃ s tail, c = s :: tail ∧
        ∀ j ∈ tail, s < j ∧
          Frac.le t (calcSimilarity (stmtAt gaps s) (stmtAt gaps j)) = true := by
  intro fuel
  induction fuel with
  | zero => intro i visited c hc; exact absurd hc (by simp [clusterLoop])
  | succ f ih =>
      intro i visited c hc
      simp only [clusterLoop] at hc
      split at hc
      · split at hc
        · exact ih _ _ c hc
        · rcases List.mem_cons.mp hc with rfl | h2
          · refine ⟨i, absorbList gaps t i visited, rfl, ?_⟩
            intro j hj
            rw [absorbList, List.mem_filter] at hj
            obtain ⟨hr, hp⟩ := hj
            have hij : i + 1 ≤ j := (List.mem_range'_1.mp hr).1
            simp only [Bool.and_eq_true] at hp
            exact ⟨by omega, hp.2⟩
          · exact ih _ _ c h2
      · exact absurd hc (by simp at hc)

/-- C5: in the clustering pass, (a) the first cluster is seeded at index
0 and absorbs exactly the later statements whose similarity **to the
seed** reaches the threshold (the comparison is `threshold <= sim`, so
similarity exactly at the threshold clusters and anything below does
not); (b) every cluster consists of a seed followed by later indices
each of whose similarity to that cluster's own seed reaches the
threshold — members are never compared to other absorbed members. -/
theorem c5_seed_absorption (gaps : List Gap) (t : Frac) (hne : gaps ≠ []) :
    (buildClusters gaps t).head? =
      some (0 :: (List.range' 1 (gaps.length - 1)).filter
        (fun j => Frac.le t (calcSimilarity (stmtAt gaps 0) (stmtAt gaps j)))) ∧
    ∀ c ∈ buildClusters gaps t, ∃ s tail, c = s :: tail ∧
      ∀ j ∈ tail, s < j ∧
        Frac.le t (calcSimilarity (stmtAt gaps s) (stmtAt gaps j)) = true := by
  constructor
  · cases gaps with
    | nil => exact absurd rfl hne
    | cons g gs =>
        show (clusterLoop (g :: gs) t (gs.length + 1) 0 (fun _ => false)).head? = _
        rw [clusterLoop,
          if_pos (show 0 < (g :: gs).length from Nat.succ_pos gs.length)]
        rfl
  · intro c hc
    exact clusterLoop_sound gaps t gaps.length 0 (fun _ => false) c hc

def g5a : Gap := { defaultGap with gap_statement := "alpha aa bb cc dd ee ff gg hh" }

def g5b : Gap := { defaultGap with gap_statement := "alpha aa bb cc dd ee ff gg beta" }

def g5c : Gap := { defaultGap with gap_statement := "zz qq totally different words here" }

/-- C5 witness: on three concrete statements at threshold 0.65, the
first pair's similarity is exactly 0.650 and they cluster; the third's
similarity to the seed is below the threshold and it seeds its own
cluster; the first cluster is exactly the seed plus the
threshold-reaching later indices, by the theorem. -/
theorem c5_witness :
    calcSimilarity g5a.gap_statement g5b.gap_statement = ⟨650, 1000⟩ ∧
    Frac.le ⟨65, 100⟩ (calcSimilarity g5a.gap_statement g5b.gap_statement) = true ∧
    Frac.le ⟨65, 100⟩ (calcSimilarity g5a.gap_statement g5c.gap_statement) = false ∧
    buildClusters [g5a, g5b, g5c] ⟨65, 100⟩ = [[0, 1], [2]] ∧
    (buildClusters [g5a, g5b, g5c] ⟨65, 100⟩).head? =
      some (0 :: (List.range' 1 ([g5a, g5b, g5c].length - 1)).filter
        (fun j => Frac.le ⟨65, 100⟩
          (calcSimilarity (stmtAt [g5a, g5b, g5c] 0) (stmtAt [g5a, g5b, g5c] j)))) := by
  refine ⟨by decide, by decide, by decide, by decide, ?_⟩
  exact (c5_seed_absorption [g5a, g5b, g5c] ⟨65, 100⟩ (by decide)).1

/-! ## Claim C6: sentence eligibility has no word-count upper bound -/

def c6sentence : String :=
  "Further research is needed" ++ String.join (List.replicate 97 " a") ++ "."

def c6paper : Paper := { title := "Long Paper", abstract := some c6sentence }

set_option maxRecDepth 40000 in
/-- C6, counterexample: a 101-word sentence of 221 characters — more
than the claimed 100-word ceiling but within the 500-character cap — is
tested against the pattern library and produces a GapStatement: the
source's eligibility test is only `len(sentence.split()) < 5 or
len(sentence) > 500`, with no word-count upper bound. -/
theorem c6_counterexample :
    100 < (pySplitWs c6sentence).length ∧
    c6sentence.toList.length ≤ 500 ∧
    (foundGaps [c6paper] "" ⟨3, 10⟩).map (fun g => g.gap_statement) =
      [c6sentence] := by
  refine ⟨by decide, by decide, by decide⟩

/-- C6 (amended): the pipeline tests against the pattern library
exactly those stripped sentences with at least 5 words and at most 500
characters; a sentence below 5 words or above 500 characters is
rejected outright, and every emitted gap statement satisfies both
bounds — but there is no 100-word ceiling (see the counterexample). -/
theorem c6_eligibility_no_word_cap (p : Paper) (pats : List (RE × String))
    (mc : Frac) (raw : String) :
    (∀ g, perSentence p pats mc raw = some g →
      5 ≤ (pySplitWs g.gap_statement).length ∧
      g.gap_statement.toList.length ≤ 500) ∧
    ((pySplitWs (pyStrip raw)).length < 5 ∨ 500 < (pyStrip raw).toList.length →
      perSentence p pats mc raw = none) ∧
    (5 ≤ (pySplitWs (pyStrip raw)).length → (pyStrip raw).toList.length ≤ 500 →
      perSentence p pats mc raw = findGapAux p mc (pyStrip raw) pats) := by
  refine ⟨?_, ?_, ?_⟩
  · intro g hg
    simp only [perSentence] at hg
    split at hg
    · exact absurd hg (by simp)
    · rename_i hcond
      obtain ⟨-, -, hstmt⟩ := findGapAux_some_fields p mc (pyStrip raw) pats g hg
      rw [hstmt]
      simp only [Bool.or_eq_true, decide_eq_true_eq, not_or] at hcond
      omega
  · intro hbad
    simp only [perSentence]
    rw [if_pos (by simp only [Bool.or_eq_true, decide_eq_true_eq]; exact hbad)]
  · intro h1 h2
    simp only [perSentence]
    rw [if_neg (by simp only [Bool.or_eq_true, decide_eq_true_eq, not_or]; omega)]

/-! ## Claim C7: one category per sentence, first match wins -/

lemma findGapAux_head_match (p : Paper) (mc : Frac) (s : String) (catg : String)
    (hconf : Frac.lt (analyzeSentence s).confidence mc = false) :
    ∀ pats : List (RE × String),
      ((pats.filter (fun pc => reSearch pc.1 s)).head?).map (fun pc => pc.2) =
        some catg →
      findGapAux p mc s pats = some (mkGapEntry p s catg (analyzeSentence s)) := by
  intro pats
  induction pats with
  | nil => intro h; exact absurd h (by simp)
  | cons pc t ih =>
      obtain ⟨r0, c0⟩ := pc
      intro h
      by_cases hr : reSearch r0 s = true
      · have hfc : List.filter (fun pc => reSearch pc.1 s) ((r0, c0) :: t) =
            (r0, c0) :: List.filter (fun pc => reSearch pc.1 s) t := by
          simp [List.filter_cons, hr]
        rw [hfc] at h
        have hcat : c0 = catg := by simpa using h
        subst hcat
        simp [findGapAux, hr, hconf]
      · have hr0 : reSearch r0 s = false := by simpa using hr
        have hfc : List.filter (fun pc => reSearch pc.1 s) ((r0, c0) :: t) =
            List.filter (fun pc => reSearch pc.1 s) t := by
          simp [List.filter_cons, hr0]
        rw [hfc] at h
        have hrec := ih h
        simp only [findGapAux]
        rw [if_neg (by simp [hr0])]
        exact hrec

/-- C7: the per-sentence pattern loop returns at most one gap by
construction (it is `Option`-valued: first match, then stop); when some
pattern of the merged dictionary matches the sentence and the
sentence's confidence passes the threshold, it emits exactly one
GapStatement, tagged with the category of the **first** matching
pattern in the merged dictionary's iteration order — a sentence
matching two category patterns still yields one gap. -/
theorem c7_one_category_first_match (query : String) (p : Paper) (mc : Frac)
    (s : String) (catg : String)
    (hhead : (((mergedPatterns query).filter
      (fun pc => reSearch pc.1 s)).head?).map (fun pc => pc.2) = some catg)
    (hconf : Frac.lt (analyzeSentence s).confidence mc = false) :
    findGapAux p mc s (mergedPatterns query) =
      some (mkGapEntry p s catg (analyzeSentence s)) :=
  findGapAux_head_match p mc s catg hconf (mergedPatterns query) hhead

def s7 : String := "Additional research is needed; more data are required soon."

def p7 : Paper := { title := "Two Patterns" }

/-- C7 witness: a sentence matching two patterns of different
categories (the first two matches are Future Research Needed and More
Research Needed); the loop emits the single gap tagged with the first
one, by the theorem. -/
theorem c7_witness :
    ((((mergedPatterns "").filter (fun pc => reSearch pc.1 s7)).take 2).map
      (fun pc => pc.2) = ["Future Research Needed", "More Research Needed"]) ∧
    findGapAux p7 ⟨3, 10⟩ s7 (mergedPatterns "") =
      some (mkGapEntry p7 s7 "Future Research Needed" (analyzeSentence s7)) := by
  refine ⟨by decide, ?_⟩
  exact c7_one_category_first_match "" p7 ⟨3, 10⟩ s7 "Future Research Needed"
    (by decide) (by decide)

end SROrch
